import Mathlib

/-!
Verification development for the Hermes vendor-contact repository
(cpfr-vc-mgrmicro). The tier/dual-entry reconciliation engine of
ReferenceApp/database_manager.py is embedded shallowly: a table row is a
Python-style ordered dictionary from column names to nullable string
values, the table is the ordered list of its rows, and each DML statement
(UPDATE/DELETE/INSERT, each behind _execute_dml) consumes one entry of an
explicit outcome schedule so that storage failures and silent
(no-effect-yet-reported-ok) commits can be exercised. All engine methods
of DatabaseManager, the dual-entry helper of vendor_processor.py, the
email normalizer, and the Tier1 guard of streamlit_app.py are translated
function by function.
-/

/-- Python `str.strip()` on the character list. -/
def stripChars (l : List Char) : List Char :=
  ((l.dropWhile Char.isWhitespace).reverse.dropWhile Char.isWhitespace).reverse

/-- Python `str.strip()`. -/
def pyStrip (s : String) : String :=
  String.mk (stripChars s.data)

/-- Python `str.split(sep)` for a one-character separator, on character
lists: empty pieces are kept, as Python does. -/
def splitChar (c : Char) : List Char → List (List Char)
  | [] => [[]]
  | x :: xs =>
    match splitChar c xs with
    | [] => [[]]
    | piece :: rest => if x == c then [] :: piece :: rest else (x :: piece) :: rest

/-- Python `str.split(sep)` for a one-character separator. -/
def pySplit (c : Char) (s : String) : List String :=
  (splitChar c s.data).map String.mk

/-- Python `sep.join(parts)` for a one-character separator. -/
def pyJoin (c : Char) : List String → String
  | [] => ""
  | [s] => s
  | s :: rest => s ++ String.mk [c] ++ pyJoin c rest

/-- Python `str.lower()` (ASCII case fold). -/
def pyLower (s : String) : String :=
  String.mk (s.data.map Char.toLower)

/-- Lexicographic strict order on character lists by code point — the
string order Python and SQL use. -/
def chLt : List Char → List Char → Bool
  | [], [] => false
  | [], _ :: _ => true
  | _ :: _, [] => false
  | x :: xs, y :: ys => if x < y then true else if y < x then false else chLt xs ys

/-- Lexicographic string comparison by code point. -/
def strLt (a b : String) : Bool :=
  chLt a.data b.data

/-- A nullable column value: `none` is SQL NULL / Python None. -/
abbrev Val := Option String

/-- A row (or an updates argument) as a Python dict: insertion-ordered
association list from column names to nullable values. -/
abbrev Dict := List (String × Val)

/-- The single flat table `VC_CPFR_VENDOR_EMAIL`: its rows in storage order. -/
abbrev Table := List Dict

/-- Python `d.get(k)`: the value at a key, `None` when the key is absent.
Absence and a stored None are conflated exactly as `dict.get` does. -/
def dgetV (d : Dict) (k : String) : Val :=
  match d.find? (fun p => p.1 == k) with
  | some p => p.2
  | none => none

/-- Python `k in d`. -/
def dhas (d : Dict) (k : String) : Bool :=
  d.any (fun p => p.1 == k)

/-- Python `d[k] = v`: replace in place when the key exists (keeping its
position), otherwise append at the end. -/
def dset : Dict → String → Val → Dict
  | [], k, v => [(k, v)]
  | p :: d, k, v => if p.1 == k then (k, v) :: d else p :: dset d k v

/-- Python `d.update(u)`: fold `d[k] = v` over the items of `u` in order. -/
def dupdate (d : Dict) (u : Dict) : Dict :=
  u.foldl (fun acc p => dset acc p.1 p.2) d

/-- Python `list(d.keys())`. -/
def dkeys (d : Dict) : List String :=
  d.map (·.1)

/-- The blank test the engine uses everywhere: the value is None, or
its stripped string form is empty. -/
def isBlank : Val → Bool
  | none => true
  | some s => pyStrip s == ""

/-- The NULL handling of the INSERT/UPDATE builders: a blank value is
written as SQL NULL, anything else is written as the string itself. -/
def toSQL (v : Val) : Val :=
  if isBlank v then none else v

/-- Python f-string interpolation of a possibly-None value into a SQL
literal: `None` prints as the string "None". -/
def pyStr (v : Val) : String :=
  match v with
  | some s => s
  | none => "None"

/-- The WHERE clause used by every keyed statement: Vendor Number
equals the vendor literal and FILE equals the tier literal (SQL NULL
never equals a string literal). -/
def rowMatches (v f : String) (r : Dict) : Bool :=
  dgetV r "Vendor Number" == some v && dgetV r "FILE" == some f

/-- The row count at one key: SELECT COUNT over the keyed WHERE clause. -/
def sqlCount (v f : String) (t : Table) : Nat :=
  (t.filter (rowMatches v f)).length

/-- The keyed DELETE statement: drops every matching row. -/
def sqlDelete (v f : String) (t : Table) : Table :=
  t.filter (fun r => !(rowMatches v f r))

/-- The keyed UPDATE statement: every matching row receives all SET
clauses, in order. -/
def sqlUpdate (v f : String) (clauses : Dict) (t : Table) : Table :=
  t.map (fun r => if rowMatches v f r then dupdate r clauses else r)

/-- The INSERT statement: appends the row. -/
def sqlInsert (r : Dict) (t : Table) : Table :=
  t ++ [r]

/-- Outcome of one `_execute_dml` call against the underlying store:
`ok` executes and reports success, `err` reports failure leaving the
table unchanged, `silent` reports success without applying the statement
(the best-effort-commit anomaly the read-back verifications guard
against). -/
inductive DmlOutcome where
  | ok : DmlOutcome
  | err : DmlOutcome
  | silent : DmlOutcome
deriving DecidableEq

/-- Database state: the table plus the schedule of outcomes the next
DML statements will observe (an exhausted schedule means every later
statement succeeds normally). -/
structure DB where
  table : Table
  faults : List DmlOutcome
deriving DecidableEq

/-- Pop the next scheduled outcome (default `ok`). -/
def takeFault (db : DB) : DmlOutcome × DB :=
  match db.faults with
  | [] => (DmlOutcome.ok, db)
  | o :: rest => (o, { db with faults := rest })

/-- DatabaseManager._execute_dml: run one mutating statement, reporting
a boolean and committing best-effort. -/
def execDml (apply : Table → Table) (db : DB) : Bool × DB :=
  match takeFault db with
  | (DmlOutcome.ok, db1) => (true, { db1 with table := apply db1.table })
  | (DmlOutcome.err, db1) => (false, db1)
  | (DmlOutcome.silent, db1) => (true, db1)

/-- Stable ascending insertion by the FILE value of the row (string order, the
ORDER BY "FILE" of get_vendor_combinations; a NULL FILE sorts as ""). -/
def fileKeyOf (r : Dict) : String :=
  (dgetV r "FILE").getD ""

/-- Insert one row after every row whose FILE key is not greater. -/
def insertByFile (r : Dict) : List Dict → List Dict
  | [] => [r]
  | x :: xs =>
    if strLt (fileKeyOf r) (fileKeyOf x) then r :: x :: xs
    else x :: insertByFile r xs

/-- Stable sort by FILE value. -/
def sortByFile (l : List Dict) : List Dict :=
  l.foldl (fun acc r => insertByFile r acc) []

/-- DatabaseManager.get_vendor_combinations: all rows of one vendor, ordered by FILE. -/
def getCombos (v : String) (t : Table) : List Dict :=
  sortByFile (t.filter (fun r => dgetV r "Vendor Number" == some v))

/-- DatabaseManager.get_vendor: the first stored row at the key, if any. -/
def get_vendor (v f : String) (t : Table) : Option Dict :=
  t.find? (rowMatches v f)

/-- The two date columns given special treatment by the UPDATE builders. -/
def dateFields : List String :=
  ["Soft Chargeback Effective Date", "Hard Chargeback Effective Date"]

/-- The semicolon-separated email columns. -/
def emailFields : List String :=
  ["Vendor Contacts", "CM_Email", "CM Manager_Email", "SP_Email", "SP Manager_Email",
   "OVERRIDE_EMAIL"]

/-- Digits of a numeral to its value. -/
def digitsToNat (l : List Char) : Nat :=
  l.foldl (fun n c => n * 10 + (c.toNat - '0'.toNat)) 0

/-- Leap year, as the Python calendar arithmetic decides it. -/
def isLeap (y : Nat) : Bool :=
  (y % 4 == 0 && y % 100 != 0) || y % 400 == 0

/-- Days in a month. -/
def daysInMonth (y m : Nat) : Nat :=
  if m == 2 then (if isLeap y then 29 else 28)
  else if m == 4 || m == 6 || m == 9 || m == 11 then 30 else 31

/-- Python `datetime.strptime(value, "%Y-%m-%d")`: a four-digit year, a
one/two-digit month and day, and a calendar-valid date; `none` when the
parse raises. -/
def parseYMD (s : String) : Option (Nat × Nat × Nat) :=
  match (splitChar '-' s.data) with
  | [ys, ms, ds] =>
    if ys.length == 4 && ys.all Char.isDigit
        && decide (1 ≤ ms.length) && decide (ms.length ≤ 2) && ms.all Char.isDigit
        && decide (1 ≤ ds.length) && decide (ds.length ≤ 2) && ds.all Char.isDigit then
      let y := digitsToNat ys
      let m := digitsToNat ms
      let d := digitsToNat ds
      if 1 ≤ y && 1 ≤ m && m ≤ 12 && 1 ≤ d && d ≤ daysInMonth y m then
        some (y, m, d)
      else none
    else none
  | _ => none

/-- Zero-pad a numeral to two digits. -/
def pad2 (n : Nat) : String :=
  if n < 10 then "0" ++ toString n else toString n

/-- Zero-pad a numeral to four digits. -/
def pad4 (n : Nat) : String :=
  if n < 10 then "000" ++ toString n
  else if n < 100 then "00" ++ toString n
  else if n < 1000 then "0" ++ toString n
  else toString n

/-- Python `parsed_date.strftime("%Y-%m-%d")`. -/
def formatYMD : Nat × Nat × Nat → String
  | (y, m, d) => pad4 y ++ "-" ++ pad2 m ++ "-" ++ pad2 d

/-- Word character of the email pattern (`\w`, ASCII). -/
def isWordChar (c : Char) : Bool :=
  c.isAlphanum || c == '_'

/-- Character class `[\w\.-]` of the email pattern. -/
def isEmailChar (c : Char) : Bool :=
  isWordChar c || c == '.' || c == '-'

/-- The portion of a domain after its last dot. -/
def domTail (dom : List Char) : List Char :=
  (dom.reverse.takeWhile (fun c => c != '.')).reverse

/-- The regex of EmailValidator,
`^[\w\.-]+@[\w\.-]+\.\w\x7b2,\x7d$`: exactly one at sign, a nonempty
local part over the class, and a domain over the class whose portion
after its last dot is at least two word characters. -/
def emailPatternMatch (s : String) : Bool :=
  match splitChar '@' s.data with
  | [lcl, dom] =>
    !(lcl.isEmpty) && lcl.all isEmailChar && dom.all isEmailChar &&
      dom.contains '.' && decide (2 ≤ (domTail dom).length) &&
      (domTail dom).all isWordChar && decide ((domTail dom).length + 2 ≤ dom.length)
  | _ => false

/-- Python `email.rsplit("@", 1)` recombined with the domain lowercased:
the normalization EmailValidator applies before matching. -/
def normalizeEmail (e : String) : String :=
  if e.data.contains '@' then
    pyJoin '@' (pySplit '@' e).dropLast ++ "@" ++ pyLower ((pySplit '@' e).getLastD "")
  else pyLower e

/-- Stable ascending insertion of a string by code-point order. -/
def insertStr (s : String) : List String → List String
  | [] => [s]
  | x :: xs => if strLt s x then s :: x :: xs else x :: insertStr s xs

/-- Python `sorted(...)` on strings. -/
def sortStrings (l : List String) : List String :=
  l.foldl (fun acc s => insertStr s acc) []

/-- Keep first occurrences, dropping later duplicates. -/
def dedupFirstAux (seen : List String) : List String → List String
  | [] => []
  | a :: as =>
    if seen.contains a then dedupFirstAux seen as
    else a :: dedupFirstAux (a :: seen) as

/-- Python `set(...)` then `sorted(...)` on strings: the sorted list of
distinct elements. -/
def sortedSet (l : List String) : List String :=
  sortStrings (dedupFirstAux [] l)

/-- The `normalized_value` of EmailValidator.validate_email_list: split on
semicolons, strip, drop empties, lowercase each domain, keep only
pattern-matching addresses, then the sorted deduplicated list joined by
semicolons. -/
def validate_email_list_norm (s : String) : String :=
  if s == "" then ""
  else
    pyJoin ';' (sortedSet ((pySplit ';' s).foldl
      (fun acc e =>
        if pyStrip e == "" then acc
        else if emailPatternMatch (normalizeEmail (pyStrip e)) then
          acc ++ [normalizeEmail (pyStrip e)]
        else acc) []))

/-- VendorProcessor.create_dual_entry_data: two copies of the base data,
one with FILE Tier2 and one with FILE 6Months. -/
def create_dual_entry_data (vendorData : Dict) : Dict × Dict :=
  (dset vendorData "FILE" (some "Tier2"), dset vendorData "FILE" (some "6Months"))

/-- One SET clause of the dynamic UPDATE builders, shared verbatim by
_update_single_vendor and _make_explicit_tier_change: FILE is skipped;
a date field whose value is a non-empty string is skipped when it starts
with "datetime.date", re-formatted when it parses as %Y-%m-%d, and
skipped when the parse raises; otherwise a blank value becomes NULL and
anything else is written as-is. -/
def updClause (field : String) (v : Val) : Option (String × Val) :=
  if field == "FILE" then none
  else if dateFields.contains field then
    match v with
    | some s =>
      if s != "" && (String.mk (s.data.take 13) == "datetime.date") then none
      else if s != "" && s != "None" then
        match parseYMD s with
        | some ymd => some (field, toSQL (some (formatYMD ymd)))
        | none => none
      else some (field, toSQL v)
    | none => some (field, toSQL v)
  else some (field, toSQL v)

/-- The SET clause list an updates dict produces, in iteration order. -/
def buildSetClauses (updates : Dict) : Dict :=
  updates.filterMap (fun p => updClause p.1 p.2)

/-- DatabaseManager._update_single_vendor: no-op success on an empty
updates dict or an empty clause list, otherwise one keyed UPDATE. -/
def updateSingleVendor (v f : String) (updates : Dict) (db : DB) : Bool × DB :=
  if updates.isEmpty then (true, db)
  else if (buildSetClauses updates).isEmpty then (true, db)
  else execDml (sqlUpdate v f (buildSetClauses updates)) db

/-- DatabaseManager._insert_single_vendor: every column of the dict is
inserted, blanks as NULL. -/
def insertRowData (d : Dict) : Dict :=
  d.map (fun p => (p.1, toSQL p.2))

/-- DatabaseManager._insert_single_vendor as a DML step. -/
def insertSingleVendor (d : Dict) (db : DB) : Bool × DB :=
  execDml (sqlInsert (insertRowData d)) db

/-- The FILE values the check_query of _update_dual_entry_vendor
returns: those of the vendor rows keyed Tier2 or 6Months. -/
def dualCheckFiles (v : String) (t : Table) : List Val :=
  (t.filter (fun r =>
      dgetV r "Vendor Number" == some v &&
        (dgetV r "FILE" == some "Tier2" || dgetV r "FILE" == some "6Months"))).map
    (fun r => dgetV r "FILE")

/-- DatabaseManager._update_dual_entry_vendor: when both Tier2 and
6Months rows exist for the vendor the same updates go to both rows
(short-circuiting on the first failure); otherwise fall back to a single
update of the addressed row. -/
def updateDualEntryVendor (v f : String) (updates : Dict) (db : DB) : Bool × DB :=
  if !((dualCheckFiles v db.table).contains (some "Tier2"))
      || !((dualCheckFiles v db.table).contains (some "6Months")) then
    updateSingleVendor v f updates db
  else
    match updateSingleVendor v "Tier2" updates db with
    | (true, db1) => updateSingleVendor v "6Months" updates db1
    | (false, db1) => (false, db1)

/-- DatabaseManager.update_vendor: dispatch to the dual-entry sync path
for a Tier2 or 6Months target row; empty updates are a no-op success. -/
def update_vendor (v f : String) (updates : Dict) (db : DB) : Bool × DB :=
  if updates.isEmpty then (true, db)
  else if f == "Tier2" || f == "6Months" then updateDualEntryVendor v f updates db
  else updateSingleVendor v f updates db

/-- DatabaseManager._make_explicit_tier_change: one UPDATE setting FILE
to the new tier (plus the update clauses), then a read-back verification
that at least one row exists at the new key. -/
def makeExplicitTierChange (v origF newF : String) (updates : Dict) (db : DB) : Bool × DB :=
  match execDml (sqlUpdate v origF (("FILE", some newF) :: buildSetClauses updates)) db with
  | (false, db1) => (false, db1)
  | (true, db1) =>
    if sqlCount v newF db1.table == 0 then (false, db1) else (true, db1)

/-- DatabaseManager._delete_orphaned_secondary. -/
def deleteOrphanedSecondary (v fileToDelete : String) (db : DB) : Bool × DB :=
  execDml (sqlDelete v fileToDelete) db

/-- Existence test run over the combination list of a vendor, as the
dispatcher and the dual-entry creation path do. -/
def fileExistsB (v f : String) (t : Table) : Bool :=
  (getCombos v t).any (fun r => dgetV r "FILE" == some f)

/-- The updated_vendor_data of _change_to_tier2_with_dual_entry: the
fetched row with the updates applied and Vendor Number re-asserted. -/
def updatedDataOf (v : String) (cur updates : Dict) : Dict :=
  dset (dupdate cur updates) "Vendor Number" (some v)

/-- The Tier2 variant derived for the dual-entry creation path. -/
def tier2DataOf (v : String) (cur updates : Dict) : Dict :=
  (create_dual_entry_data (updatedDataOf v cur updates)).1

/-- The 6Months variant derived for the dual-entry creation path. -/
def sixDataOf (v : String) (cur updates : Dict) : Dict :=
  (create_dual_entry_data (updatedDataOf v cur updates)).2

/-- DatabaseManager._change_to_tier2_with_dual_entry: fetch the original
row, merge the updates onto it, derive the Tier2/6Months pair via
create_dual_entry_data; when a 6Months row already exists update it in
place and insert the Tier2 row, otherwise insert both; delete the
original row unless it was the 6Months row just updated. -/
def changeToTier2WithDualEntry (v origF : String) (updates : Dict) (db : DB) : Bool × DB :=
  match get_vendor v origF db.table with
  | none => (false, db)
  | some cur =>
    if fileExistsB v "6Months" db.table then
      match updateSingleVendor v "6Months" (sixDataOf v cur updates) db with
      | (false, db1) => (false, db1)
      | (true, db1) =>
        match insertSingleVendor (tier2DataOf v cur updates) db1 with
        | (false, db2) => (false, db2)
        | (true, db2) =>
          if origF == "6Months" then (true, db2)
          else
            match execDml (sqlDelete v origF) db2 with
            | (false, db3) => (false, db3)
            | (true, db3) => (true, db3)
    else
      match insertSingleVendor (tier2DataOf v cur updates) db with
      | (false, db1) => (false, db1)
      | (true, db1) =>
        match insertSingleVendor (sixDataOf v cur updates) db1 with
        | (false, db2) => (false, db2)
        | (true, db2) =>
          match execDml (sqlDelete v origF) db2 with
          | (false, db3) => (false, db3)
          | (true, db3) => (true, db3)

/-- The in-memory merge of _change_within_dual_entry: the Tier2 value
when non-blank, else the 6Months value when non-blank, else the Tier2
value (None or blank) as the default. -/
def mergePairField (t2v s6v : Val) : Val :=
  if !(isBlank t2v) then t2v
  else if !(isBlank s6v) then s6v
  else t2v

/-- Union of the keys of the two rows (FILE excluded), Tier2 keys first. -/
def pairFields (t2 s6 : Dict) : List String :=
  ((dkeys t2 ++ (dkeys s6).filter (fun k => !((dkeys t2).contains k))).filter
    (fun k => k != "FILE"))

/-- The merged dict of _change_within_dual_entry before user updates. -/
def mergedPairData (t2 s6 : Dict) : Dict :=
  (pairFields t2 s6).map (fun f => (f, mergePairField (dgetV t2 f) (dgetV s6 f)))

/-- DatabaseManager._change_within_dual_entry: merge both rows of the
pair in memory, apply the updates on top, delete the originalTier row,
verify zero rows remain at that key (non-zero aborts), then update the
newTier row with the merged data and verify it exists. Falls back to
_make_explicit_tier_change when either row of the pair is missing. -/
def changeWithinDualEntry (v origF newF : String) (updates : Dict) (db : DB) : Bool × DB :=
  match (getCombos v db.table).find? (fun r => dgetV r "FILE" == some "Tier2"),
      (getCombos v db.table).find? (fun r => dgetV r "FILE" == some "6Months") with
  | some t2, some s6 =>
    match execDml (sqlDelete v origF) db with
    | (false, db1) => (false, db1)
    | (true, db1) =>
      if decide (0 < sqlCount v origF db1.table) then (false, db1)
      else
        match updateSingleVendor v newF (dupdate (mergedPairData t2 s6) updates) db1 with
        | (false, db2) => (false, db2)
        | (true, db2) =>
          if sqlCount v newF db2.table == 0 then (false, db2) else (true, db2)
  | _, _ => makeExplicitTierChange v origF newF updates db

/-- Seen-accumulator loop building the file_groups key order. -/
def groupKeysAux (seen : List Val) : List Dict → List Val
  | [] => []
  | r :: rs =>
    if seen.contains (dgetV r "FILE") then groupKeysAux seen rs
    else dgetV r "FILE" :: groupKeysAux (dgetV r "FILE" :: seen) rs

/-- The FILE values appearing in a combination list, first occurrences
in order — the keys of the file_groups dict of _check_and_fix_duplicates. -/
def groupKeys (combos : List Dict) : List Val :=
  groupKeysAux [] combos

/-- One FILE group of the combination list. -/
def groupOf (combos : List Dict) (fv : Val) : List Dict :=
  combos.filter (fun r => dgetV r "FILE" == fv)

/-- The first FILE group holding more than one row, in key order — the
group _check_and_fix_duplicates deduplicates before returning. -/
def firstDupGroup (combos : List Dict) : Option (Val × List Dict) :=
  (groupKeys combos).findSome? (fun fv =>
    if decide (1 < (groupOf combos fv).length) then some (fv, groupOf combos fv) else none)

/-- The duplicate merge of _check_and_fix_duplicates: start from the
first entry and fill each still-blank field (FILE and Vendor Number
skipped) from the first later entry holding a non-blank value. -/
def mergeDupEntries : List Dict → Dict
  | [] => []
  | e0 :: rest =>
    rest.foldl
      (fun acc e =>
        e.foldl
          (fun acc2 p =>
            if p.1 == "FILE" || p.1 == "Vendor Number" then acc2
            else if isBlank (dgetV acc2 p.1) && !(isBlank p.2) then dset acc2 p.1 p.2
            else acc2)
          acc)
      e0

/-- DatabaseManager._check_and_fix_duplicates: on the first FILE group
with more than one row, merge the group, DELETE every row at that FILE
value (the post-delete count is read and logged but not enforced),
re-insert the merged row, and fail only when the post-insert count is
zero; success with no DML when no group is duplicated. -/
def checkAndFixDuplicates (v : String) (db : DB) : Bool × DB :=
  match firstDupGroup (getCombos v db.table) with
  | none => (true, db)
  | some (fv, entries) =>
    match execDml (sqlDelete v (pyStr fv)) db with
    | (false, db1) => (false, db1)
    | (true, db1) =>
      match insertSingleVendor
          (dset (dset (mergeDupEntries entries) "Vendor Number" (some v)) "FILE" fv) db1 with
      | (false, db2) => (false, db2)
      | (true, db2) =>
        if sqlCount v (pyStr fv) db2.table == 0 then (false, db2) else (true, db2)

/-- DatabaseManager._check_and_fix_missing_secondary: only creates a
6Months row when a Tier2 row exists without one; a standalone 6Months
row is left alone. -/
def checkAndFixMissingSecondary (v : String) (db : DB) : Bool × DB :=
  match (getCombos v db.table).find? (fun r => dgetV r "FILE" == some "Tier2"),
      (getCombos v db.table).find? (fun r => dgetV r "FILE" == some "6Months") with
  | some t2, none => insertSingleVendor (dset t2 "FILE" (some "6Months")) db
  | _, _ => (true, db)

/-- The comparison normalization of _check_and_fix_unsynced_dual:
`str(value or "").strip()`. -/
def normStr : Val → String
  | none => ""
  | some s => pyStrip s

/-- The per-field merge of _check_and_fix_unsynced_dual: on a mismatch
prefer the non-blank Tier2 value, else the non-blank 6Months value, else
the Tier2 value; on a match keep the Tier2 value. -/
def syncMergedField (t2v s6v : Val) : Val :=
  if normStr t2v != normStr s6v then
    if t2v != none && normStr t2v != "" then t2v
    else if s6v != none && normStr s6v != "" then s6v
    else t2v
  else t2v

/-- The email re-normalization _check_and_fix_unsynced_dual applies to
each truthy email field of the merged data. -/
def normalizeEmailsInMerged (merged : Dict) : Dict :=
  emailFields.foldl
    (fun acc f =>
      match dgetV acc f with
      | some s => if dhas acc f && s != "" then dset acc f (some (validate_email_list_norm s)) else acc
      | none => acc)
    merged

/-- The mismatch list of _check_and_fix_unsynced_dual: the non-FILE
fields whose normalized values differ between the pair rows. -/
def pairMismatches (t2 s6 : Dict) : List String :=
  (pairFields t2 s6).filter (fun f => normStr (dgetV t2 f) != normStr (dgetV s6 f))

/-- The merged_data dict of _check_and_fix_unsynced_dual. -/
def syncMergedData (t2 s6 : Dict) : Dict :=
  (pairFields t2 s6).map (fun f => (f, syncMergedField (dgetV t2 f) (dgetV s6 f)))

/-- The sync_updates dict of _check_and_fix_unsynced_dual: the merged
data after email normalization, minus Vendor Number and FILE. -/
def syncUpdatesOf (t2 s6 : Dict) : Dict :=
  (normalizeEmailsInMerged (syncMergedData t2 s6)).filter
    (fun p => p.1 != "Vendor Number" && p.1 != "FILE")

/-- DatabaseManager._check_and_fix_unsynced_dual: when both rows of the
pair exist, compare every field but FILE under normStr; with no mismatch
succeed without touching storage, otherwise normalize email fields in
the merged data and write every field (minus Vendor Number and FILE) to
both rows through _update_dual_entry_vendor. -/
def checkAndFixUnsyncedDual (v : String) (db : DB) : Bool × DB :=
  match (getCombos v db.table).find? (fun r => dgetV r "FILE" == some "Tier2"),
      (getCombos v db.table).find? (fun r => dgetV r "FILE" == some "6Months") with
  | some t2, some s6 =>
    if (pairMismatches t2 s6).isEmpty then (true, db)
    else updateDualEntryVendor v "Tier2" (syncUpdatesOf t2 s6) db
  | _, _ => (true, db)

/-- The field_updates computation at the head of change_vendor_tier:
the updates dict with any FILE entry removed. -/
def stripFILE (u : Dict) : Dict :=
  u.filter (fun p => p.1 != "FILE")

/-- The conditional orphaned-secondary deletion of the regular path:
when the change left a Tier2/6Months pair, drop the now-orphaned
sibling; the result of the deletion itself is discarded. -/
def orphanStep (v origF newF : String) (db : DB) : DB :=
  if (origF == "Tier2" || origF == "6Months")
      && !(newF == "Tier2" || newF == "6Months") then
    (deleteOrphanedSecondary v (if origF == "Tier2" then "6Months" else "Tier2") db).2
  else db

/-- DatabaseManager.change_vendor_tier: strip FILE from the updates,
then dispatch — target Tier2 goes to the within-pair path when both pair
rows exist and to dual-entry creation otherwise; a Tier2/6Months swap
goes to the within-pair path when both exist and to a plain rewrite when
not; every other change is the explicit rewrite followed by the
conditional orphaned-secondary delete and the two self-healing passes,
whose results are discarded. -/
def change_vendor_tier (v origF newF : String) (updates : Dict) (db : DB) : Bool × DB :=
  if newF == "Tier2" then
    (if fileExistsB v "Tier2" db.table && fileExistsB v "6Months" db.table then
      changeWithinDualEntry v origF newF (stripFILE updates) db
    else changeToTier2WithDualEntry v origF (stripFILE updates) db)
  else if (origF == "Tier2" || origF == "6Months")
      && (newF == "Tier2" || newF == "6Months") && origF != newF then
    (if fileExistsB v "Tier2" db.table && fileExistsB v "6Months" db.table then
      changeWithinDualEntry v origF newF (stripFILE updates) db
    else makeExplicitTierChange v origF newF (stripFILE updates) db)
  else
    match makeExplicitTierChange v origF newF (stripFILE updates) db with
    | (false, db1) => (false, db1)
    | (true, db1) =>
      (true, (checkAndFixUnsyncedDual v
        (checkAndFixDuplicates v (orphanStep v origF newF db1)).2).2)

/-- The Tier1 guard at the head of save_vendor_changes
(streamlit_app.py): a new FILE of Tier1 is refused with an error unless
the record already is Tier1. -/
def saveBlocksTier1 (originalFile newFile : String) : Bool :=
  newFile == "Tier1" && originalFile != "Tier1"

/-- Whether save_vendor_changes reaches its tier-change branch: the
Tier1 guard must pass and the FILE value must actually change. -/
def saveAttemptsTierChange (originalFile newFile : String) : Bool :=
  !(saveBlocksTier1 originalFile newFile) && originalFile != newFile

/-- Key of a row: the (Vendor Number, FILE) pair the table is keyed by. -/
def rowKey (r : Dict) : Val × Val :=
  (dgetV r "Vendor Number", dgetV r "FILE")

/-- Literal field agreement of a dual pair on every column but FILE. -/
def pairSyncedB (a b : Dict) : Bool :=
  (pairFields a b).all (fun f => dgetV a f == dgetV b f)

/-- No row of the table is keyed (v, Tier2). -/
def noTier2Row (v : String) (t : Table) : Prop :=
  ∀ r ∈ t, rowMatches v "Tier2" r = false

/-- The last SET value a clause list assigns to a column, if any. -/
def lastVal (c : Dict) (k : String) : Option Val :=
  (c.reverse.find? (fun p => p.1 == k)).map (·.2)

/-- Vendor 7 with a Tier2 row and a 3Months row. -/
def dbDupCreation : DB :=
  ⟨[[("Vendor Number", some "7"), ("FILE", some "Tier2"), ("Vendor Name", some "A")],
    [("Vendor Number", some "7"), ("FILE", some "3Months"), ("Vendor Name", some "B")]], []⟩

/-- Vendor 5 with a single 3Months row. -/
def dbTier1Target : DB :=
  ⟨[[("Vendor Number", some "5"), ("FILE", some "3Months"), ("Vendor Name", some "x")]], []⟩

/-- Vendor 1001 with only a Tier1 row named Acme (Scenario A). -/
def dbScenarioA : DB :=
  ⟨[[("Vendor Number", some "1001"), ("FILE", some "Tier1"), ("Vendor Name", some "Acme")]], []⟩

/-- Vendor 1002 with a 3Months row and a pre-existing 6Months row. -/
def dbSixExists : DB :=
  ⟨[[("Vendor Number", some "1002"), ("FILE", some "3Months"), ("Vendor Name", some "N"),
     ("CM_Email", some "z@y.com")],
    [("Vendor Number", some "1002"), ("FILE", some "6Months"), ("Vendor Name", none),
     ("CM_Email", some "q@y.com")]], []⟩

/-- Vendor 9 holding a full dual pair whose Vendor Name fields are the
two given values. -/
def dbPair (a b : Val) : DB :=
  ⟨[[("Vendor Number", some "9"), ("FILE", some "Tier2"), ("Vendor Name", a)],
    [("Vendor Number", some "9"), ("FILE", some "6Months"), ("Vendor Name", b)]], []⟩

/-- Vendor 11 with a standalone Tier2 row. -/
def dbLoneTier2 : DB :=
  ⟨[[("Vendor Number", some "11"), ("FILE", some "Tier2"), ("Vendor Name", some "S")]], []⟩

/-- Vendor 1004 with a synchronized dual pair (Scenario D). -/
def dbScenarioD : DB :=
  ⟨[[("Vendor Number", some "1004"), ("FILE", some "Tier2"), ("Vendor Name", some "D")],
    [("Vendor Number", some "1004"), ("FILE", some "6Months"), ("Vendor Name", some "D")]], []⟩

/-- Vendor 2: a dual pair disagreeing only on a date column holding an
unparseable value on the Tier2 side. -/
def dbBadDate : DB :=
  ⟨[[("Vendor Number", some "2"), ("FILE", some "Tier2"),
     ("Soft Chargeback Effective Date", some "garbage")],
    [("Vendor Number", some "2"), ("FILE", some "6Months"),
     ("Soft Chargeback Effective Date", none)]], []⟩

/-- Vendor 3: a dual pair whose Vendor Name fields differ only by
whitespace-versus-NULL. -/
def dbTrimPair : DB :=
  ⟨[[("Vendor Number", some "3"), ("FILE", some "Tier2"), ("Vendor Name", some " ")],
    [("Vendor Number", some "3"), ("FILE", some "6Months"), ("Vendor Name", none)]], []⟩

/-- Vendor 1003 with two Tier2 rows, one named Bob and one blank
(Scenario C). -/
def dbScenarioC : DB :=
  ⟨[[("Vendor Number", some "1003"), ("FILE", some "Tier2"), ("Vendor Name", some "Bob")],
    [("Vendor Number", some "1003"), ("FILE", some "Tier2"), ("Vendor Name", some "")]], []⟩

/-- Vendor 8 with two duplicated groups: two Tier1 rows and two 3Months
rows. -/
def dbTwoDupGroups : DB :=
  ⟨[[("Vendor Number", some "8"), ("FILE", some "Tier1"), ("Vendor Name", some "b1")],
    [("Vendor Number", some "8"), ("FILE", some "Tier1"), ("Vendor Name", some "b2")],
    [("Vendor Number", some "8"), ("FILE", some "3Months"), ("Vendor Name", some "a1")],
    [("Vendor Number", some "8"), ("FILE", some "3Months"), ("Vendor Name", some "a2")]], []⟩

/-- Vendor 6 with a Tier1 and a 3Months row, under a schedule where the
second DML statement fails. -/
def dbHealFault : DB :=
  ⟨[[("Vendor Number", some "6"), ("FILE", some "Tier1"), ("Vendor Name", some "a")],
    [("Vendor Number", some "6"), ("FILE", some "3Months"), ("Vendor Name", some "b")]],
   [DmlOutcome.ok, DmlOutcome.err]⟩

/-- Vendor 9 with one 3Months row, for the key-rewrite counterexample. -/
def dbKeyRewrite : DB :=
  ⟨[[("Vendor Number", some "9"), ("FILE", some "3Months"), ("Vendor Name", some "n")]], []⟩

/-- The FILE column of every row, in storage order. -/
def filesOf (t : Table) : List Val :=
  t.map (fun r => dgetV r "FILE")

/-- The (Vendor Number, FILE) key of every row, in storage order. -/
def keysOf (t : Table) : List (Val × Val) :=
  t.map rowKey

/-! ## Dictionary lemmas -/

theorem dgetV_nil (k : String) : dgetV [] k = none := rfl

theorem dgetV_cons (p : String × Val) (d : Dict) (k : String) :
    dgetV (p :: d) k = if p.1 = k then p.2 else dgetV d k := by
  by_cases h : p.1 = k
  · simp [dgetV, List.find?_cons, h]
  · simp [dgetV, List.find?_cons, h]

theorem dgetV_dset (d : Dict) (k : String) (v : Val) (k' : String) :
    dgetV (dset d k v) k' = if k = k' then v else dgetV d k' := by
  induction d with
  | nil => simp [dset, dgetV_cons, dgetV_nil]
  | cons p d ih =>
    by_cases hp : p.1 = k
    · simp only [dset, hp, beq_self_eq_true, if_true]
      rw [dgetV_cons, dgetV_cons]
      by_cases h2 : k = k'
      · simp [h2, hp]
      · simp [h2, hp]
    · have hp2 : (p.1 == k) = false := by simpa using hp
      simp only [dset, hp2, Bool.false_eq_true, if_false]
      rw [dgetV_cons, dgetV_cons, ih]
      by_cases h2 : k = k'
      · subst h2
        simp [hp]
      · simp [h2]

theorem dkeys_dset_sub (d : Dict) (k : String) (v : Val) :
    ∀ k', k' ∈ dkeys (dset d k v) → k' ∈ dkeys d ∨ k' = k := by
  induction d with
  | nil =>
    intro k' h
    simp only [dset, dkeys, List.map_cons, List.map_nil, List.mem_singleton] at h
    simp [h]
  | cons p d ih =>
    intro k' h
    by_cases hp : p.1 = k
    · simp only [dset, hp, beq_self_eq_true, if_true, dkeys, List.map_cons,
        List.mem_cons] at h ⊢
      rcases h with h | h
      · right; exact h
      · left; right; exact h
    · have hp2 : (p.1 == k) = false := by simpa using hp
      simp only [dset, hp2, Bool.false_eq_true, if_false, dkeys, List.map_cons,
        List.mem_cons] at h ⊢
      rcases h with h | h
      · left; left; exact h
      · rcases ih k' (by simpa [dkeys] using h) with h2 | h2
        · left; right; simpa [dkeys] using h2
        · right; exact h2

theorem lastVal_nil (k : String) : lastVal [] k = none := rfl

theorem lastVal_cons (p : String × Val) (c : Dict) (k : String) :
    lastVal (p :: c) k =
      (lastVal c k).or (if p.1 = k then some p.2 else none) := by
  by_cases h : p.1 = k
  · cases hf : List.find? (fun q => q.1 == k) c.reverse with
    | some q => simp [lastVal, List.find?_append, hf, h]
    | none => simp [lastVal, List.find?_append, hf, h]
  · have h2 : (p.1 == k) = false := by simpa using h
    cases hf : List.find? (fun q => q.1 == k) c.reverse with
    | some q => simp [lastVal, List.find?_append, hf, h2, h]
    | none => simp [lastVal, List.find?_append, hf, h2, h]

theorem dgetV_dupdate (d c : Dict) (k : String) :
    dgetV (dupdate d c) k = (lastVal c k).getD (dgetV d k) := by
  induction c generalizing d with
  | nil => simp [dupdate, lastVal_nil]
  | cons p c ih =>
    have hstep : dupdate d (p :: c) = dupdate (dset d p.1 p.2) c := rfl
    rw [hstep, ih, lastVal_cons, dgetV_dset]
    cases hl : lastVal c k with
    | some w => simp
    | none =>
      by_cases h : p.1 = k
      · simp [h]
      · simp [h]

theorem lastVal_eq_none_of_not_mem (c : Dict) (k : String) (h : k ∉ c.map (·.1)) :
    lastVal c k = none := by
  unfold lastVal
  rw [List.find?_eq_none.mpr]
  · rfl
  · intro p hp hbeq
    refine h ?_
    have hk : p.1 = k := by simpa using hbeq
    rw [← hk]
    exact List.mem_map_of_mem _ (by simpa using hp)

theorem dgetV_dupdate_not_mem (d c : Dict) (k : String) (h : k ∉ c.map (·.1)) :
    dgetV (dupdate d c) k = dgetV d k := by
  rw [dgetV_dupdate, lastVal_eq_none_of_not_mem c k h]
  rfl

theorem dgetV_eq_none_of_not_mem_keys (d : Dict) (k : String) (h : k ∉ dkeys d) :
    dgetV d k = none := by
  unfold dgetV
  rw [List.find?_eq_none.mpr]
  intro p hp hbeq
  refine h ?_
  have hk : p.1 = k := by simpa using hbeq
  rw [← hk]
  exact List.mem_map_of_mem _ hp

/-! ## Sort and filter lemmas -/

theorem find?_eq_head?_filter {α : Type} (p : α → Bool) (l : List α) :
    l.find? p = (l.filter p).head? := by
  induction l with
  | nil => rfl
  | cons a as ih =>
    by_cases h : p a
    · rw [List.find?_cons_of_pos _ h, List.filter_cons_of_pos h]
      rfl
    · rw [List.find?_cons_of_neg _ h, List.filter_cons_of_neg h, ih]

theorem insertByFile_perm (r : Dict) (l : List Dict) :
    List.Perm (insertByFile r l) (r :: l) := by
  induction l with
  | nil => simp [insertByFile]
  | cons x xs ih =>
    by_cases h : strLt (fileKeyOf r) (fileKeyOf x)
    · simp [insertByFile, h]
    · have h2 : strLt (fileKeyOf r) (fileKeyOf x) = false := by simpa using h
      simp only [insertByFile, h2, Bool.false_eq_true, if_false]
      exact (ih.cons x).trans (List.Perm.swap r x xs)

theorem sortByFile_perm (l : List Dict) : List.Perm (sortByFile l) l := by
  have key : ∀ (l acc : List Dict),
      List.Perm (l.foldl (fun acc r => insertByFile r acc) acc) (acc ++ l) := by
    intro l
    induction l with
    | nil => intro acc; simp
    | cons r rs ih =>
      intro acc
      have h1 := ih (insertByFile r acc)
      have h2 : List.Perm (insertByFile r acc ++ rs) ((r :: acc) ++ rs) :=
        (insertByFile_perm r acc).append_right rs
      have h3 : List.Perm ((r :: acc) ++ rs) (acc ++ r :: rs) := by
        simpa using List.perm_middle.symm
      exact h1.trans (h2.trans h3)
  simpa [sortByFile] using key l []

theorem getCombos_perm (v : String) (t : Table) :
    List.Perm (getCombos v t) (t.filter (fun r => dgetV r "Vendor Number" == some v)) :=
  sortByFile_perm _

theorem mem_getCombos (v : String) (t : Table) (r : Dict) :
    r ∈ getCombos v t ↔ r ∈ t ∧ dgetV r "Vendor Number" = some v := by
  rw [(getCombos_perm v t).mem_iff, List.mem_filter]
  simp

theorem filter_getCombos_perm (v f : String) (t : Table) :
    List.Perm ((getCombos v t).filter (fun r => dgetV r "FILE" == some f))
      (t.filter (rowMatches v f)) := by
  refine ((getCombos_perm v t).filter _).trans ?_
  rw [List.filter_filter]
  refine List.Perm.of_eq (List.filter_congr ?_)
  intro r _
  simp [rowMatches, Bool.and_comm]

theorem find?_getCombos_of_filter_eq (v f : String) (t : Table) (r : Dict)
    (h : t.filter (rowMatches v f) = [r]) :
    (getCombos v t).find? (fun x => dgetV x "FILE" == some f) = some r := by
  rw [find?_eq_head?_filter]
  have hp := filter_getCombos_perm v f t
  rw [h] at hp
  rw [List.perm_singleton.mp hp]
  rfl

theorem find?_getCombos_of_filter_nil (v f : String) (t : Table)
    (h : t.filter (rowMatches v f) = []) :
    (getCombos v t).find? (fun x => dgetV x "FILE" == some f) = none := by
  rw [find?_eq_head?_filter]
  have hp := filter_getCombos_perm v f t
  rw [h] at hp
  rw [List.Perm.eq_nil hp.symm.symm]
  rfl

/-! ## Clause lemmas -/

theorem updClause_eq_some (f : String) (v : Val) (q : String × Val)
    (h : updClause f v = some q) : q.1 = f ∧ f ≠ "FILE" := by
  by_cases hf : f = "FILE"
  · simp [updClause, hf] at h
  · have hf2 : (f == "FILE") = false := by simpa using hf
    refine ⟨?_, hf⟩
    by_cases hd : dateFields.contains f
    · simp only [updClause, hf2, Bool.false_eq_true, if_false, hd, if_true] at h
      cases v with
      | none => simp at h; rw [← h]
      | some s =>
        by_cases h1 : s != "" && (String.mk (s.data.take 13) == "datetime.date")
        · simp [h1] at h
        · have h1f : (s != "" && (String.mk (s.data.take 13) == "datetime.date")) = false := by
            simpa using h1
          by_cases h2 : s != "" && s != "None"
          · simp only [h1f, Bool.false_eq_true, if_false, h2, if_true] at h
            cases hp : parseYMD s with
            | some ymd => simp [hp] at h; rw [← h]
            | none => simp [hp] at h
          · have h2f : (s != "" && s != "None") = false := by simpa using h2
            simp only [h1f, Bool.false_eq_true, if_false, h2f] at h
            simp at h
            rw [← h]
    · have hd2 : dateFields.contains f = false := by simpa using hd
      simp only [updClause, hf2, Bool.false_eq_true, if_false, hd2] at h
      simp at h
      rw [← h]

theorem updClause_plain (f : String) (v : Val) (hf : f ≠ "FILE")
    (hd : dateFields.contains f = false) :
    updClause f v = some (f, toSQL v) := by
  have hf2 : (f == "FILE") = false := by simpa using hf
  have hd2 : f ∉ dateFields := by simpa using hd
  simp [updClause, hf2, hd2]

theorem mem_keys_buildSetClauses (u : Dict) (k : String) :
    k ∈ (buildSetClauses u).map (·.1) → k ∈ u.map (·.1) ∧ k ≠ "FILE" := by
  intro h
  rcases List.mem_map.mp h with ⟨q, hq, hk⟩
  rcases List.mem_filterMap.mp hq with ⟨p, hp, hpq⟩
  rcases updClause_eq_some p.1 p.2 q hpq with ⟨h1, h2⟩
  constructor
  · rw [← hk, h1]
    exact List.mem_map_of_mem _ hp
  · rw [← hk, h1]
    exact h2

theorem file_not_mem_buildSetClauses (u : Dict) :
    "FILE" ∉ (buildSetClauses u).map (·.1) := by
  intro h
  exact (mem_keys_buildSetClauses u "FILE" h).2 rfl

theorem mem_keys_buildSetClauses_plain (u : Dict) (k : String) (hf : k ≠ "FILE")
    (hd : dateFields.contains k = false) (h : k ∈ u.map (·.1)) :
    k ∈ (buildSetClauses u).map (·.1) := by
  rcases List.mem_map.mp h with ⟨p, hp, hk⟩
  refine List.mem_map.mpr ⟨(k, toSQL p.2), ?_, rfl⟩
  refine List.mem_filterMap.mpr ⟨p, hp, ?_⟩
  rw [hk]
  exact updClause_plain k p.2 hf hd

/-! ## Row-key preservation under updates -/

theorem dgetV_dupdate_file (r c : Dict) (h : "FILE" ∉ c.map (·.1)) :
    dgetV (dupdate r c) "FILE" = dgetV r "FILE" :=
  dgetV_dupdate_not_mem r c "FILE" h

theorem rowMatches_dupdate_of_file_eq (v f : String) (r c : Dict)
    (hfile : dgetV (dupdate r c) "FILE" = dgetV r "FILE")
    (hvn : dgetV (dupdate r c) "Vendor Number" = dgetV r "Vendor Number") :
    rowMatches v f (dupdate r c) = rowMatches v f r := by
  simp [rowMatches, hfile, hvn]

/-- Result of an execDml step: the applied table or the untouched table. -/
theorem execDml_table (g : Table → Table) (db : DB) :
    (execDml g db).2.table = g db.table ∨ (execDml g db).2.table = db.table := by
  unfold execDml takeFault
  cases db.faults with
  | nil => left; rfl
  | cons o rest => cases o <;> simp

/-- A table predicate preserved by the statement is preserved by the
execDml step whatever the scheduled outcome. -/
theorem execDml_pres (P : Table → Prop) (g : Table → Table) (db : DB)
    (hg : P db.table → P (g db.table)) (h : P db.table) :
    P (execDml g db).2.table := by
  rcases execDml_table g db with h1 | h1 <;> rw [h1]
  · exact hg h
  · exact h

theorem execDml_faultfree (g : Table → Table) (t : Table) :
    execDml g ⟨t, []⟩ = (true, ⟨g t, []⟩) := rfl

theorem rowMatches_file (v f : String) (r : Dict) (h : rowMatches v f r = true) :
    dgetV r "FILE" = some f := by
  simp [rowMatches] at h
  exact h.2

theorem rowMatches_vendor (v f : String) (r : Dict) (h : rowMatches v f r = true) :
    dgetV r "Vendor Number" = some v := by
  simp [rowMatches] at h
  exact h.1

theorem filter_sqlUpdate_self (v f : String) (c : Dict) (t : Table)
    (hvn : "Vendor Number" ∉ c.map (·.1)) (hfile : "FILE" ∉ c.map (·.1)) :
    (sqlUpdate v f c t).filter (rowMatches v f) =
      (t.filter (rowMatches v f)).map (fun r => dupdate r c) := by
  induction t with
  | nil => rfl
  | cons r t ih =>
    have hpres : rowMatches v f (dupdate r c) = rowMatches v f r :=
      rowMatches_dupdate_of_file_eq v f r c
        (dgetV_dupdate_not_mem r c "FILE" hfile)
        (dgetV_dupdate_not_mem r c "Vendor Number" hvn)
    by_cases h : rowMatches v f r
    · simp only [sqlUpdate, List.map_cons, h, if_true]
      rw [List.filter_cons_of_pos (by rw [hpres]; exact h),
        List.filter_cons_of_pos h, List.map_cons]
      exact congrArg _ ih
    · have hf : rowMatches v f r = false := by simpa using h
      simp only [sqlUpdate, List.map_cons, hf, Bool.false_eq_true, if_false]
      rw [List.filter_cons_of_neg (by simp [hf]), List.filter_cons_of_neg (by simp [hf])]
      exact ih

theorem filter_sqlUpdate_other (v f v' f' : String) (c : Dict) (t : Table)
    (hfile : "FILE" ∉ c.map (·.1)) (hne : f ≠ f') :
    (sqlUpdate v f c t).filter (rowMatches v' f') = t.filter (rowMatches v' f') := by
  induction t with
  | nil => rfl
  | cons r t ih =>
    by_cases h : rowMatches v f r
    · have hrf : dgetV r "FILE" = some f := rowMatches_file v f r h
      have h1 : rowMatches v' f' (dupdate r c) = false := by
        simp only [rowMatches, dgetV_dupdate_not_mem r c "FILE" hfile, hrf]
        simp [hne]
      have h2 : rowMatches v' f' r = false := by
        simp only [rowMatches, hrf]
        simp [hne]
      simp only [sqlUpdate, List.map_cons, h, if_true]
      rw [List.filter_cons_of_neg (by simp [h1]), List.filter_cons_of_neg (by simp [h2])]
      exact ih
    · have hf : rowMatches v f r = false := by simpa using h
      simp only [sqlUpdate, List.map_cons, hf, Bool.false_eq_true, if_false]
      by_cases h2 : rowMatches v' f' r
      · rw [List.filter_cons_of_pos h2, List.filter_cons_of_pos h2]
        exact congrArg _ ih
      · rw [List.filter_cons_of_neg h2, List.filter_cons_of_neg h2]
        exact ih

theorem filesOf_sqlUpdate (v f : String) (c : Dict) (t : Table)
    (hfile : "FILE" ∉ c.map (·.1)) :
    (sqlUpdate v f c t).map (fun r => dgetV r "FILE") =
      t.map (fun r => dgetV r "FILE") := by
  unfold sqlUpdate
  rw [List.map_map]
  refine List.map_congr_left ?_
  intro r _
  by_cases h : rowMatches v f r
  · simp [Function.comp, h, dgetV_dupdate_not_mem r c "FILE" hfile]
  · simp [Function.comp, h]

/-! ## Absence of a (v, Tier2) row is preserved by non-Tier2-targeted steps -/

theorem noTier2Row_delete (v w f : String) (t : Table) (h : noTier2Row v t) :
    noTier2Row v (sqlDelete w f t) := by
  intro r hr
  exact h r (List.mem_filter.mp hr).1

theorem noTier2Row_insert (v : String) (r0 : Dict) (t : Table) (h : noTier2Row v t)
    (h0 : rowMatches v "Tier2" r0 = false) : noTier2Row v (sqlInsert r0 t) := by
  intro r hr
  rcases List.mem_append.mp hr with h1 | h1
  · exact h r h1
  · rw [List.mem_singleton.mp h1]
    exact h0

theorem noTier2Row_update (v f : String) (c : Dict) (t : Table)
    (hfile : "FILE" ∉ c.map (·.1)) (h : noTier2Row v t) :
    noTier2Row v (sqlUpdate v f c t) := by
  intro r' hr'
  rcases List.mem_map.mp hr' with ⟨r, hr, hg⟩
  by_cases hm : rowMatches v f r
  · rw [← hg]
    simp only [hm, if_true]
    have hrf : dgetV r "FILE" = some f := rowMatches_file v f r hm
    by_cases hf2 : f = "Tier2"
    · subst hf2
      exact absurd (h r hr) (by simp [hm])
    · simp only [rowMatches, dgetV_dupdate_not_mem r c "FILE" hfile, hrf]
      simp [hf2]
  · rw [← hg]
    simp only [hm, if_false]
    exact h r hr

theorem dgetV_dupdate_setfile (r cs : Dict) (w : Val)
    (hfile : "FILE" ∉ cs.map (·.1)) :
    dgetV (dupdate r (("FILE", w) :: cs)) "FILE" = w := by
  rw [dgetV_dupdate, lastVal_cons, lastVal_eq_none_of_not_mem cs "FILE" hfile]
  simp

theorem dgetV_insertRowData (d : Dict) (k : String) :
    dgetV (insertRowData d) k = toSQL (dgetV d k) := by
  induction d with
  | nil => simp [insertRowData, dgetV_nil, toSQL, isBlank]
  | cons p d ih =>
    simp only [insertRowData] at ih ⊢
    rw [List.map_cons, dgetV_cons, dgetV_cons]
    by_cases h : p.1 = k
    · simp [h]
    · simp [h, ih]

theorem noTier2Row_update_setfile (v origF newF : String) (cs : Dict) (t : Table)
    (hfile : "FILE" ∉ cs.map (·.1)) (hne : newF ≠ "Tier2") (h : noTier2Row v t) :
    noTier2Row v (sqlUpdate v origF (("FILE", some newF) :: cs) t) := by
  intro r' hr'
  rcases List.mem_map.mp hr' with ⟨r, hr, hg⟩
  by_cases hm : rowMatches v origF r
  · rw [← hg]
    simp only [hm, if_true]
    simp only [rowMatches, dgetV_dupdate_setfile r cs (some newF) hfile]
    simp [hne]
  · rw [← hg]
    simp only [hm, if_false]
    exact h r hr

theorem updateSingleVendor_noT2 (v f : String) (u : Dict) (db : DB)
    (h : noTier2Row v db.table) :
    noTier2Row v (updateSingleVendor v f u db).2.table := by
  unfold updateSingleVendor
  by_cases h1 : u.isEmpty
  · simpa [h1] using h
  · have h1f : u.isEmpty = false := by simpa using h1
    simp only [h1f, Bool.false_eq_true, if_false]
    by_cases h2 : (buildSetClauses u).isEmpty
    · simpa [h2] using h
    · have h2f : (buildSetClauses u).isEmpty = false := by simpa using h2
      simp only [h2f, Bool.false_eq_true, if_false]
      exact execDml_pres (noTier2Row v) _ db
        (noTier2Row_update v f (buildSetClauses u) db.table
          (file_not_mem_buildSetClauses u)) h

theorem updateDualEntryVendor_noT2 (v f : String) (u : Dict) (db : DB)
    (h : noTier2Row v db.table) :
    noTier2Row v (updateDualEntryVendor v f u db).2.table := by
  unfold updateDualEntryVendor
  rcases h1 : updateSingleVendor v "Tier2" u db with ⟨b, db1⟩
  have hdb1 : noTier2Row v db1.table := by
    have h2 := updateSingleVendor_noT2 v "Tier2" u db h
    rw [h1] at h2
    exact h2
  cases b
  · split
    · exact updateSingleVendor_noT2 v f u db h
    · exact hdb1
  · split
    · exact updateSingleVendor_noT2 v f u db h
    · exact updateSingleVendor_noT2 v "6Months" u db1 hdb1

theorem update_vendor_noT2 (v f : String) (u : Dict) (db : DB)
    (h : noTier2Row v db.table) :
    noTier2Row v (update_vendor v f u db).2.table := by
  unfold update_vendor
  split
  · exact h
  · split
    · exact updateDualEntryVendor_noT2 v f u db h
    · exact updateSingleVendor_noT2 v f u db h

theorem makeExplicitTierChange_noT2 (v origF newF : String) (u : Dict) (db : DB)
    (hne : newF ≠ "Tier2") (h : noTier2Row v db.table) :
    noTier2Row v (makeExplicitTierChange v origF newF u db).2.table := by
  unfold makeExplicitTierChange
  have hres : noTier2Row v (execDml
      (sqlUpdate v origF (("FILE", some newF) :: buildSetClauses u)) db).2.table :=
    execDml_pres (noTier2Row v) _ db
      (noTier2Row_update_setfile v origF newF (buildSetClauses u) db.table
        (file_not_mem_buildSetClauses u) hne) h
  rcases h1 : execDml
      (sqlUpdate v origF (("FILE", some newF) :: buildSetClauses u)) db with ⟨b, db1⟩
  rw [h1] at hres
  cases b
  · exact hres
  · dsimp only
    split <;> exact hres

theorem deleteOrphanedSecondary_noT2 (v f : String) (db : DB)
    (h : noTier2Row v db.table) :
    noTier2Row v (deleteOrphanedSecondary v f db).2.table := by
  unfold deleteOrphanedSecondary
  exact execDml_pres (noTier2Row v) _ db (noTier2Row_delete v v f db.table) h

theorem changeWithinDualEntry_noT2 (v origF newF : String) (u : Dict) (db : DB)
    (hne : newF ≠ "Tier2") (h : noTier2Row v db.table) :
    noTier2Row v (changeWithinDualEntry v origF newF u db).2.table := by
  unfold changeWithinDualEntry
  split
  · rcases h1 : execDml (sqlDelete v origF) db with ⟨b, db1⟩
    have hdb1 : noTier2Row v db1.table := by
      have h3 := execDml_pres (noTier2Row v) (sqlDelete v origF) db
        (noTier2Row_delete v v origF db.table) h
      rw [h1] at h3
      exact h3
    cases b
    · exact hdb1
    · dsimp only
      split
      · exact hdb1
      · rcases h2 : updateSingleVendor v newF _ db1 with ⟨b2, db2⟩
        rename_i t2x s6x heq1 heq2 hcnt
        have hdb2 : noTier2Row v db2.table := by
          have h4 := updateSingleVendor_noT2 v newF
            (dupdate (mergedPairData t2x s6x) u) db1 hdb1
          rw [h2] at h4
          exact h4
        cases b2
        · exact hdb2
        · dsimp only
          split <;> exact hdb2
  · exact makeExplicitTierChange_noT2 v origF newF u db hne h

theorem firstDupGroup_spec (combos : List Dict) (fv : Val) (entries : List Dict)
    (h : firstDupGroup combos = some (fv, entries)) :
    entries = groupOf combos fv ∧ 1 < entries.length := by
  rcases List.exists_of_findSome?_eq_some h with ⟨k, hk, hf⟩
  by_cases hlen : 1 < (groupOf combos k).length
  · rw [if_pos (by simpa using hlen)] at hf
    have hpair : k = fv ∧ groupOf combos k = entries := by
      have := Option.some.inj hf
      exact ⟨congrArg Prod.fst this, congrArg Prod.snd this⟩
    constructor
    · rw [← hpair.2, hpair.1]
    · rw [← hpair.2]
      exact hlen
  · rw [if_neg (by simpa using hlen)] at hf
    exact absurd hf (by simp)

theorem toSQL_ne_some_of_ne (w : Val) (sv : String) (h : w ≠ some sv) :
    toSQL w ≠ some sv := by
  unfold toSQL
  split
  · simp
  · exact h

theorem checkAndFixDuplicates_noT2 (v : String) (db : DB)
    (h : noTier2Row v db.table) :
    noTier2Row v (checkAndFixDuplicates v db).2.table := by
  unfold checkAndFixDuplicates
  split
  · exact h
  · rename_i fv entries hgrp
    rcases firstDupGroup_spec (getCombos v db.table) fv entries hgrp with ⟨hent, hlen⟩
    have hfv : fv ≠ some "Tier2" := by
      intro hfveq
      have hne : entries ≠ [] := by
        intro hnil
        rw [hnil] at hlen
        simp at hlen
      rcases List.exists_mem_of_ne_nil entries hne with ⟨e, he⟩
      have he2 : e ∈ getCombos v db.table ∧ dgetV e "FILE" = fv := by
        rw [hent] at he
        rcases List.mem_filter.mp he with ⟨h1, h2⟩
        exact ⟨h1, by simpa using h2⟩
      rcases (mem_getCombos v db.table e).mp he2.1 with ⟨hmem, hvn⟩
      have : rowMatches v "Tier2" e = true := by
        simp [rowMatches, hvn, he2.2, hfveq]
      exact absurd (h e hmem) (by simp [this])
    have hmergedfile : rowMatches v "Tier2" (insertRowData
        (dset (dset (mergeDupEntries entries) "Vendor Number" (some v)) "FILE" fv)) = false := by
      have hfile : dgetV (dset (dset (mergeDupEntries entries) "Vendor Number" (some v))
          "FILE" fv) "FILE" = fv := by
        rw [dgetV_dset]
        simp
      have : dgetV (insertRowData (dset (dset (mergeDupEntries entries)
          "Vendor Number" (some v)) "FILE" fv)) "FILE" = toSQL fv := by
        rw [dgetV_insertRowData, hfile]
      simp only [rowMatches, this]
      have := toSQL_ne_some_of_ne fv "Tier2" hfv
      simp [this]
    rcases h1 : execDml (sqlDelete v (pyStr fv)) db with ⟨b, db1⟩
    have hdb1 : noTier2Row v db1.table := by
      have h3 := execDml_pres (noTier2Row v) (sqlDelete v (pyStr fv)) db
        (noTier2Row_delete v v (pyStr fv) db.table) h
      rw [h1] at h3
      exact h3
    cases b
    · exact hdb1
    · dsimp only
      rcases h2 : insertSingleVendor
          (dset (dset (mergeDupEntries entries) "Vendor Number" (some v)) "FILE" fv) db1
        with ⟨b2, db2⟩
      have hdb2 : noTier2Row v db2.table := by
        have h4 : noTier2Row v (insertSingleVendor
            (dset (dset (mergeDupEntries entries) "Vendor Number" (some v)) "FILE" fv)
            db1).2.table := by
          unfold insertSingleVendor
          exact execDml_pres (noTier2Row v) _ db1
            (fun ht => noTier2Row_insert v _ db1.table ht hmergedfile) hdb1
        rw [h2] at h4
        exact h4
      cases b2
      · exact hdb2
      · dsimp only
        split <;> exact hdb2

theorem checkAndFixUnsyncedDual_noT2 (v : String) (db : DB)
    (h : noTier2Row v db.table) :
    noTier2Row v (checkAndFixUnsyncedDual v db).2.table := by
  unfold checkAndFixUnsyncedDual
  split
  · split
    · exact h
    · rename_i t2 s6 heq1 heq2 hmm
      exact updateDualEntryVendor_noT2 v "Tier2" (syncUpdatesOf t2 s6) db h
  · exact h

theorem change_vendor_tier_noT2 (v origF newF : String) (u : Dict) (db : DB)
    (hne : newF ≠ "Tier2") (h : noTier2Row v db.table) :
    noTier2Row v (change_vendor_tier v origF newF u db).2.table := by
  unfold change_vendor_tier
  have hne2 : (newF == "Tier2") = false := by simpa using hne
  simp only [hne2, Bool.false_eq_true, if_false]
  split
  · split
    · exact changeWithinDualEntry_noT2 v origF newF (stripFILE u) db hne h
    · exact makeExplicitTierChange_noT2 v origF newF (stripFILE u) db hne h
  · rcases h1 : makeExplicitTierChange v origF newF (stripFILE u) db with ⟨b, db1⟩
    have hdb1 : noTier2Row v db1.table := by
      have h3 := makeExplicitTierChange_noT2 v origF newF (stripFILE u) db hne h
      rw [h1] at h3
      exact h3
    cases b
    · exact hdb1
    · dsimp only
      have h4 : noTier2Row v (orphanStep v origF newF db1).table := by
        unfold orphanStep
        split
        · exact deleteOrphanedSecondary_noT2 v _ db1 hdb1
        · exact hdb1
      have h5 := checkAndFixDuplicates_noT2 v (orphanStep v origF newF db1) h4
      exact checkAndFixUnsyncedDual_noT2 v _ h5

/-! ## Dispatch of change_vendor_tier -/

theorem sqlCount_eq_zero_iff (v f : String) (t : Table) :
    sqlCount v f t = 0 ↔ ∀ r ∈ t, rowMatches v f r = false := by
  unfold sqlCount
  rw [List.length_eq_zero, List.filter_eq_nil_iff]
  constructor
  · intro h r hr
    simpa using h r hr
  · intro h r hr
    simp [h r hr]

theorem change_dispatch_tier2_create (v origF : String) (u : Dict) (db : DB)
    (h : (fileExistsB v "Tier2" db.table && fileExistsB v "6Months" db.table) = false) :
    change_vendor_tier v origF "Tier2" u db =
      changeToTier2WithDualEntry v origF (stripFILE u) db := by
  unfold change_vendor_tier
  simp [h]

theorem change_dispatch_tier2_within (v origF : String) (u : Dict) (db : DB)
    (h : (fileExistsB v "Tier2" db.table && fileExistsB v "6Months" db.table) = true) :
    change_vendor_tier v origF "Tier2" u db =
      changeWithinDualEntry v origF "Tier2" (stripFILE u) db := by
  unfold change_vendor_tier
  simp [h]

theorem change_dispatch_within (v origF newF : String) (u : Dict) (db : DB)
    (horig : origF = "Tier2" ∨ origF = "6Months")
    (hnew : newF = "Tier2" ∨ newF = "6Months") (hne : origF ≠ newF)
    (h : (fileExistsB v "Tier2" db.table && fileExistsB v "6Months" db.table) = true) :
    change_vendor_tier v origF newF u db =
      changeWithinDualEntry v origF newF (stripFILE u) db := by
  rcases hnew with hnew | hnew
  · rw [hnew]
    rw [hnew] at hne
    exact change_dispatch_tier2_within v origF u db h
  · rcases horig with horig | horig
    · rw [horig, hnew]
      unfold change_vendor_tier
      simp [h]
    · rw [horig] at hne
      rw [hnew] at hne
      exact absurd rfl hne

theorem change_dispatch_swap_single (v : String) (u : Dict) (db : DB)
    (h : (fileExistsB v "Tier2" db.table && fileExistsB v "6Months" db.table) = false) :
    change_vendor_tier v "Tier2" "6Months" u db =
      makeExplicitTierChange v "Tier2" "6Months" (stripFILE u) db := by
  unfold change_vendor_tier
  simp [h]

theorem change_dispatch_regular (v origF newF : String) (u : Dict) (db : DB)
    (hnew2 : newF ≠ "Tier2") (hnew6 : newF ≠ "6Months") :
    change_vendor_tier v origF newF u db =
      (match makeExplicitTierChange v origF newF (stripFILE u) db with
        | (false, db1) => (false, db1)
        | (true, db1) =>
          (true, (checkAndFixUnsyncedDual v
            (checkAndFixDuplicates v (orphanStep v origF newF db1)).2).2)) := by
  unfold change_vendor_tier
  have h2 : (newF == "Tier2") = false := by simpa using hnew2
  have h6 : (newF == "6Months") = false := by simpa using hnew6
  simp [h2, h6]

/-! ## Frame lemmas for the field-update paths -/

theorem keysOf_sqlUpdate (v f : String) (c : Dict) (t : Table)
    (hvn : "Vendor Number" ∉ c.map (·.1)) (hfile : "FILE" ∉ c.map (·.1)) :
    keysOf (sqlUpdate v f c t) = keysOf t := by
  unfold keysOf sqlUpdate
  rw [List.map_map]
  refine List.map_congr_left ?_
  intro r _
  by_cases h : rowMatches v f r
  · simp [Function.comp, h, rowKey, dgetV_dupdate_not_mem r c "FILE" hfile,
      dgetV_dupdate_not_mem r c "Vendor Number" hvn]
  · simp [Function.comp, h]

theorem vn_not_mem_buildSetClauses (u : Dict) (h : "Vendor Number" ∉ u.map (·.1)) :
    "Vendor Number" ∉ (buildSetClauses u).map (·.1) := by
  intro hmem
  exact h (mem_keys_buildSetClauses u "Vendor Number" hmem).1

theorem filesOf_updateSingleVendor (v f : String) (u : Dict) (db : DB) :
    filesOf (updateSingleVendor v f u db).2.table = filesOf db.table := by
  unfold updateSingleVendor
  split
  · rfl
  · split
    · rfl
    · exact execDml_pres (fun t => filesOf t = filesOf db.table) _ db
        (fun _ => by
          show filesOf (sqlUpdate v f (buildSetClauses u) db.table) = filesOf db.table
          exact filesOf_sqlUpdate v f (buildSetClauses u) db.table
            (file_not_mem_buildSetClauses u))
        rfl

theorem keysOf_updateSingleVendor (v f : String) (u : Dict) (db : DB)
    (hvn : "Vendor Number" ∉ u.map (·.1)) :
    keysOf (updateSingleVendor v f u db).2.table = keysOf db.table := by
  unfold updateSingleVendor
  split
  · rfl
  · split
    · rfl
    · exact execDml_pres (fun t => keysOf t = keysOf db.table) _ db
        (fun _ => by
          show keysOf (sqlUpdate v f (buildSetClauses u) db.table) = keysOf db.table
          exact keysOf_sqlUpdate v f (buildSetClauses u) db.table
            (vn_not_mem_buildSetClauses u hvn) (file_not_mem_buildSetClauses u))
        rfl

theorem filesOf_updateDualEntryVendor (v f : String) (u : Dict) (db : DB) :
    filesOf (updateDualEntryVendor v f u db).2.table = filesOf db.table := by
  unfold updateDualEntryVendor
  rcases h1 : updateSingleVendor v "Tier2" u db with ⟨b, db1⟩
  have hdb1 : filesOf db1.table = filesOf db.table := by
    have h2 := filesOf_updateSingleVendor v "Tier2" u db
    rw [h1] at h2
    exact h2
  cases b
  · split
    · exact filesOf_updateSingleVendor v f u db
    · exact hdb1
  · split
    · exact filesOf_updateSingleVendor v f u db
    · rw [filesOf_updateSingleVendor v "6Months" u db1]
      exact hdb1

theorem keysOf_updateDualEntryVendor (v f : String) (u : Dict) (db : DB)
    (hvn : "Vendor Number" ∉ u.map (·.1)) :
    keysOf (updateDualEntryVendor v f u db).2.table = keysOf db.table := by
  unfold updateDualEntryVendor
  rcases h1 : updateSingleVendor v "Tier2" u db with ⟨b, db1⟩
  have hdb1 : keysOf db1.table = keysOf db.table := by
    have h2 := keysOf_updateSingleVendor v "Tier2" u db hvn
    rw [h1] at h2
    exact h2
  cases b
  · split
    · exact keysOf_updateSingleVendor v f u db hvn
    · exact hdb1
  · split
    · exact keysOf_updateSingleVendor v f u db hvn
    · rw [keysOf_updateSingleVendor v "6Months" u db1 hvn]
      exact hdb1

theorem filesOf_update_vendor (v f : String) (u : Dict) (db : DB) :
    filesOf (update_vendor v f u db).2.table = filesOf db.table := by
  unfold update_vendor
  split
  · rfl
  · split
    · exact filesOf_updateDualEntryVendor v f u db
    · exact filesOf_updateSingleVendor v f u db

theorem keysOf_update_vendor (v f : String) (u : Dict) (db : DB)
    (hvn : "Vendor Number" ∉ u.map (·.1)) :
    keysOf (update_vendor v f u db).2.table = keysOf db.table := by
  unfold update_vendor
  split
  · rfl
  · split
    · exact keysOf_updateDualEntryVendor v f u db hvn
    · exact keysOf_updateSingleVendor v f u db hvn

theorem stripFILE_idem (u : Dict) : stripFILE (stripFILE u) = stripFILE u := by
  unfold stripFILE
  rw [List.filter_filter]
  refine List.filter_congr ?_
  intro p _
  by_cases h : p.1 = "FILE" <;> simp [h]

theorem buildSetClauses_stripFILE (u : Dict) :
    buildSetClauses u = buildSetClauses (stripFILE u) := by
  unfold buildSetClauses stripFILE
  induction u with
  | nil => rfl
  | cons p u ih =>
    by_cases h : p.1 = "FILE"
    · have hb : (p.1 != "FILE") = false := by simp [h]
      rw [List.filter_cons_of_neg (by simp [hb])]
      rw [List.filterMap_cons]
      have : updClause p.1 p.2 = none := by simp [updClause, h]
      rw [this]
      exact ih
    · have hb : (p.1 != "FILE") = true := by simp [h]
      rw [List.filter_cons_of_pos (by simp [hb])]
      rw [List.filterMap_cons, List.filterMap_cons]
      cases updClause p.1 p.2 with
      | none => exact ih
      | some q => rw [ih]

/-! ## Claim theorems -/

/-- C1: the no-true-duplicates invariant does not survive every
successful engine operation. Starting from the duplicate-free state with
a Tier2 row and a 3Months row for vendor 7, the ChangeTier call
3Months → Tier2 reports success yet leaves two rows keyed
(7, Tier2): the dual-entry creation path inserts a fresh Tier2 row
without checking that one already exists and runs no deduplication. -/
theorem change_to_tier2_duplicates_key_C1 :
    (change_vendor_tier "7" "3Months" "Tier2" [] dbDupCreation).1 = true ∧
      sqlCount "7" "Tier2"
        (change_vendor_tier "7" "3Months" "Tier2" [] dbDupCreation).2.table = 2 := by
  constructor
  · rfl
  · rfl

/-- C2 counterexample: the engine operation itself does not reject a
Tier1 target. On vendor 5 with one 3Months row, change_vendor_tier to
Tier1 returns success and rewrites the row to Tier1 — the call neither
returns failure nor leaves the table unmutated. -/
theorem engine_accepts_tier1_target_C2 :
    (change_vendor_tier "5" "3Months" "Tier1" [] dbTier1Target).1 = true ∧
      (change_vendor_tier "5" "3Months" "Tier1" [] dbTier1Target).2.table =
        [[("Vendor Number", some "5"), ("FILE", some "Tier1"),
          ("Vendor Name", some "x")]] := by
  constructor
  · rfl
  · rfl

/-- C2 amended: the Tier1-target rejection is enforced one layer up, in
save_vendor_changes of the UI: a request whose new FILE is Tier1 never
reaches the tier-change branch (it is blocked when the original tier
differs, and is not a tier change at all when the original already is
Tier1), while the engine itself treats a Tier1 target as a plain regular
tier change. -/
theorem tier1_guard_is_ui_layer_C2 :
    (∀ origF : String, saveAttemptsTierChange origF "Tier1" = false) ∧
      (∀ origF : String, origF ≠ "Tier1" → saveBlocksTier1 origF "Tier1" = true) ∧
      (∀ (v origF : String) (u : Dict) (db : DB),
        change_vendor_tier v origF "Tier1" u db =
          (match makeExplicitTierChange v origF "Tier1" (stripFILE u) db with
            | (false, db1) => (false, db1)
            | (true, db1) =>
              (true, (checkAndFixUnsyncedDual v
                (checkAndFixDuplicates v (orphanStep v origF "Tier1" db1)).2).2))) := by
  refine ⟨?_, ?_, ?_⟩
  · intro origF
    by_cases h : origF = "Tier1" <;>
      simp [saveAttemptsTierChange, saveBlocksTier1, h]
  · intro origF h
    simp [saveBlocksTier1, h]
  · intro v origF u db
    exact change_dispatch_regular v origF "Tier1" u db (by decide) (by decide)

/-- C2 witness: the guard blocks a 3Months → Tier1 request. -/
theorem tier1_guard_is_ui_layer_C2_witness :
    ("3Months" : String) ≠ "Tier1" ∧ saveBlocksTier1 "3Months" "Tier1" = true :=
  ⟨by decide, tier1_guard_is_ui_layer_C2.2.1 "3Months" (by decide)⟩

/-- C9 counterexample: a storage failure inside a self-healing pass is
swallowed. On vendor 6 (a Tier1 and a 3Months row) with a schedule whose
second DML statement fails, ChangeTier Tier1 → 3Months first creates two
duplicate 3Months rows by the in-place rewrite, the DELETE of the deduplication pass
then fails (as the third conjunct shows on the post-rewrite
state), yet the call still returns success, leaving the duplicates. -/
theorem self_healing_failure_swallowed_C9 :
    (change_vendor_tier "6" "Tier1" "3Months" [] dbHealFault).1 = true ∧
      sqlCount "6" "3Months"
        (change_vendor_tier "6" "Tier1" "3Months" [] dbHealFault).2.table = 2 ∧
      (checkAndFixDuplicates "6"
        ⟨[[("Vendor Number", some "6"), ("FILE", some "3Months"), ("Vendor Name", some "a")],
          [("Vendor Number", some "6"), ("FILE", some "3Months"), ("Vendor Name", some "b")]],
         [DmlOutcome.err]⟩).1 = false := by
  refine ⟨rfl, rfl, rfl⟩

/-- C9 amended: on the regular (default-case) path the caller sees
exactly the verdict of the explicit rewrite — a failing explicit step aborts
and reports false, but once it succeeds the call reports success no
matter what fails inside the orphan deletion or the self-healing passes,
whose boolean results are discarded. -/
theorem regular_change_returns_explicit_verdict_C9 :
    ∀ (v origF newF : String) (u : Dict) (db : DB),
      newF ≠ "Tier2" → newF ≠ "6Months" →
      (change_vendor_tier v origF newF u db).1 =
        (makeExplicitTierChange v origF newF (stripFILE u) db).1 := by
  intro v origF newF u db h2 h6
  rw [change_dispatch_regular v origF newF u db h2 h6]
  rcases makeExplicitTierChange v origF newF (stripFILE u) db with ⟨b, db1⟩
  cases b <;> rfl

/-- C9 witness: on the faulted state the verdict equals the explicit
verdict of the explicit step. -/
theorem regular_change_returns_explicit_verdict_C9_witness :
    ("3Months" : String) ≠ "Tier2" ∧ ("3Months" : String) ≠ "6Months" ∧
      (change_vendor_tier "6" "Tier1" "3Months" [] dbHealFault).1 =
        (makeExplicitTierChange "6" "Tier1" "3Months" (stripFILE []) dbHealFault).1 :=
  ⟨by decide, by decide,
    regular_change_returns_explicit_verdict_C9 "6" "Tier1" "3Months" [] dbHealFault
      (by decide) (by decide)⟩

/-- C10 counterexample: the update builders skip only FILE, not Vendor
Number, so an updates dict carrying a Vendor Number entry rewrites the
vendor half of the key: update_vendor on the 3Months row of vendor 9 with
updates setting Vendor Number to 10 succeeds and changes the
(Vendor Number, FILE) key of the row. -/
theorem update_vendor_can_rewrite_vendor_number_C10 :
    (update_vendor "9" "3Months" [("Vendor Number", some "10")] dbKeyRewrite).1 = true ∧
      keysOf (update_vendor "9" "3Months"
        [("Vendor Number", some "10")] dbKeyRewrite).2.table =
          [(some "10", some "3Months")] ∧
      keysOf dbKeyRewrite.table = [(some "9", some "3Months")] := by
  refine ⟨rfl, rfl, rfl⟩

/-- C10 amended: no field-update path ever changes the FILE value of any row —
change_vendor_tier strips FILE from its updates, the UPDATE builders
skip FILE entries, so update_vendor preserves the FILE of every row, and it
preserves the whole (Vendor Number, FILE) key whenever the updates carry
no Vendor Number entry. -/
theorem file_never_changed_by_updates_C10 :
    (∀ (v f : String) (u : Dict) (db : DB),
      filesOf (update_vendor v f u db).2.table = filesOf db.table) ∧
      (∀ (v f : String) (u : Dict) (db : DB), "Vendor Number" ∉ u.map (·.1) →
        keysOf (update_vendor v f u db).2.table = keysOf db.table) ∧
      (∀ (v origF newF : String) (u : Dict) (db : DB),
        change_vendor_tier v origF newF u db =
          change_vendor_tier v origF newF (stripFILE u) db) ∧
      (∀ (v origF newF : String) (u : Dict) (db : DB),
        makeExplicitTierChange v origF newF u db =
          makeExplicitTierChange v origF newF (stripFILE u) db) := by
  refine ⟨filesOf_update_vendor, keysOf_update_vendor, ?_, ?_⟩
  · intro v origF newF u db
    unfold change_vendor_tier
    rw [stripFILE_idem]
  · intro v origF newF u db
    unfold makeExplicitTierChange
    rw [buildSetClauses_stripFILE]

/-- C10 witness: keys are preserved by an update without a Vendor
Number entry. -/
theorem file_never_changed_by_updates_C10_witness :
    "Vendor Number" ∉ ([("Vendor Name", some "m")] : Dict).map (·.1) ∧
      keysOf (update_vendor "9" "3Months"
        [("Vendor Name", some "m")] dbKeyRewrite).2.table = keysOf dbKeyRewrite.table :=
  ⟨by decide, file_never_changed_by_updates_C10.2.1 "9" "3Months"
    [("Vendor Name", some "m")] dbKeyRewrite (by decide)⟩

/-- C5: when originalTier and newTier are the two pair tiers but both
rows do not exist, ChangeTier is the plain single-row rewrite (pair
creation is not triggered; the Tier2-target case belongs to the
higher-priority dual-creation dispatch); and no operation other than a
ChangeTier targeting Tier2 ever creates a (v, Tier2) row: a tier change
with any other target, a field update, and both self-healing passes all
preserve the absence of a Tier2 row for the vendor, under every fault
schedule. The concrete run shows a standalone Tier2 row rewritten to
6Months with no pair row created. -/
theorem no_auto_tier2_creation_C5 :
    (∀ (v : String) (u : Dict) (db : DB),
      (fileExistsB v "Tier2" db.table && fileExistsB v "6Months" db.table) = false →
      change_vendor_tier v "Tier2" "6Months" u db =
        makeExplicitTierChange v "Tier2" "6Months" (stripFILE u) db) ∧
      (∀ (v origF newF : String) (u : Dict) (db : DB), newF ≠ "Tier2" →
        sqlCount v "Tier2" db.table = 0 →
        sqlCount v "Tier2" (change_vendor_tier v origF newF u db).2.table = 0) ∧
      (∀ (v f : String) (u : Dict) (db : DB),
        sqlCount v "Tier2" db.table = 0 →
        sqlCount v "Tier2" (update_vendor v f u db).2.table = 0) ∧
      (∀ (v : String) (db : DB), sqlCount v "Tier2" db.table = 0 →
        sqlCount v "Tier2" (checkAndFixDuplicates v db).2.table = 0) ∧
      (∀ (v : String) (db : DB), sqlCount v "Tier2" db.table = 0 →
        sqlCount v "Tier2" (checkAndFixUnsyncedDual v db).2.table = 0) ∧
      ((change_vendor_tier "11" "Tier2" "6Months" [] dbLoneTier2).1 = true ∧
        (change_vendor_tier "11" "Tier2" "6Months" [] dbLoneTier2).2.table =
          [[("Vendor Number", some "11"), ("FILE", some "6Months"),
            ("Vendor Name", some "S")]]) := by
  refine ⟨change_dispatch_swap_single, ?_, ?_, ?_, ?_, rfl, rfl⟩
  · intro v origF newF u db hne h0
    rw [sqlCount_eq_zero_iff] at h0 ⊢
    exact change_vendor_tier_noT2 v origF newF u db hne h0
  · intro v f u db h0
    rw [sqlCount_eq_zero_iff] at h0 ⊢
    exact update_vendor_noT2 v f u db h0
  · intro v db h0
    rw [sqlCount_eq_zero_iff] at h0 ⊢
    exact checkAndFixDuplicates_noT2 v db h0
  · intro v db h0
    rw [sqlCount_eq_zero_iff] at h0 ⊢
    exact checkAndFixUnsyncedDual_noT2 v db h0

/-- C5 witness: on the standalone-Tier2 state the swap dispatches to the
plain rewrite, and a 3Months-target change on a Tier2-free vendor leaves
the vendor Tier2-free. -/
theorem no_auto_tier2_creation_C5_witness :
    ((fileExistsB "11" "Tier2" dbLoneTier2.table &&
        fileExistsB "11" "6Months" dbLoneTier2.table) = false ∧
      change_vendor_tier "11" "Tier2" "6Months" [] dbLoneTier2 =
        makeExplicitTierChange "11" "Tier2" "6Months" (stripFILE []) dbLoneTier2) ∧
      (sqlCount "5" "Tier2" dbTier1Target.table = 0 ∧
        sqlCount "5" "Tier2"
          (change_vendor_tier "5" "3Months" "Tier1" [] dbTier1Target).2.table = 0) :=
  ⟨⟨by decide, no_auto_tier2_creation_C5.1 "11" [] dbLoneTier2 (by decide)⟩,
   ⟨by decide, no_auto_tier2_creation_C5.2.1 "5" "3Months" "Tier1" [] dbTier1Target
      (by decide) (by decide)⟩⟩

/-- C3: a Tier2-target change on a vendor without the full dual pair
dispatches to the dual-entry creation path. Scenario A: vendor 1001's
lone Tier1 row named Acme becomes exactly a Tier2 row and a 6Months row,
both named Acme, with the Tier1 row deleted. When a 6Months row already
exists (vendor 1002), that row is updated in place with the merged data,
the Tier2 row is inserted, and the original 3Months row is deleted. -/
theorem tier2_target_dual_creation_C3 :
    (∀ (v origF : String) (u : Dict) (db : DB),
      (fileExistsB v "Tier2" db.table && fileExistsB v "6Months" db.table) = false →
      change_vendor_tier v origF "Tier2" u db =
        changeToTier2WithDualEntry v origF (stripFILE u) db) ∧
      ((change_vendor_tier "1001" "Tier1" "Tier2" [] dbScenarioA).1 = true ∧
        (change_vendor_tier "1001" "Tier1" "Tier2" [] dbScenarioA).2.table =
          [[("Vendor Number", some "1001"), ("FILE", some "Tier2"),
            ("Vendor Name", some "Acme")],
           [("Vendor Number", some "1001"), ("FILE", some "6Months"),
            ("Vendor Name", some "Acme")]]) ∧
      ((change_vendor_tier "1002" "3Months" "Tier2" [] dbSixExists).1 = true ∧
        (change_vendor_tier "1002" "3Months" "Tier2" [] dbSixExists).2.table =
          [[("Vendor Number", some "1002"), ("FILE", some "6Months"),
            ("Vendor Name", some "N"), ("CM_Email", some "z@y.com")],
           [("Vendor Number", some "1002"), ("FILE", some "Tier2"),
            ("Vendor Name", some "N"), ("CM_Email", some "z@y.com")]]) := by
  refine ⟨change_dispatch_tier2_create, ⟨rfl, rfl⟩, rfl, rfl⟩

/-- C3 witness: The Scenario A state satisfies the dispatch hypothesis and
the dispatch equation. -/
theorem tier2_target_dual_creation_C3_witness :
    (fileExistsB "1001" "Tier2" dbScenarioA.table &&
        fileExistsB "1001" "6Months" dbScenarioA.table) = false ∧
      change_vendor_tier "1001" "Tier1" "Tier2" [] dbScenarioA =
        changeToTier2WithDualEntry "1001" "Tier1" (stripFILE []) dbScenarioA :=
  ⟨by decide, tier2_target_dual_creation_C3.1 "1001" "Tier1" [] dbScenarioA (by decide)⟩

/-- C6: a regular change moving off the pair tiers is the in-place
rewrite followed by the orphaned-sibling delete and the two self-healing
passes (the orphan deletion fires exactly under the claimed condition);
Scenario D: vendor 1004's synchronized Tier2/6Months pair under
ChangeTier Tier2 → 3Months collapses to exactly one 3Months row carrying
the merged (common) data. -/
theorem regular_change_merges_pair_C6 :
    (∀ (v origF newF : String) (u : Dict) (db : DB),
      (origF = "Tier2" ∨ origF = "6Months") → newF ≠ "Tier2" → newF ≠ "6Months" →
      change_vendor_tier v origF newF u db =
        (match makeExplicitTierChange v origF newF (stripFILE u) db with
          | (false, db1) => (false, db1)
          | (true, db1) =>
            (true, (checkAndFixUnsyncedDual v
              (checkAndFixDuplicates v (orphanStep v origF newF db1)).2).2))) ∧
      (∀ (v origF newF : String) (db1 : DB),
        (origF = "Tier2" ∨ origF = "6Months") → newF ≠ "Tier2" → newF ≠ "6Months" →
        orphanStep v origF newF db1 =
          (deleteOrphanedSecondary v
            (if origF == "Tier2" then "6Months" else "Tier2") db1).2) ∧
      ((change_vendor_tier "1004" "Tier2" "3Months" [] dbScenarioD).1 = true ∧
        (change_vendor_tier "1004" "Tier2" "3Months" [] dbScenarioD).2.table =
          [[("Vendor Number", some "1004"), ("FILE", some "3Months"),
            ("Vendor Name", some "D")]]) := by
  refine ⟨?_, ?_, rfl, rfl⟩
  · intro v origF newF u db _ h2 h6
    exact change_dispatch_regular v origF newF u db h2 h6
  · intro v origF newF db1 horig h2 h6
    unfold orphanStep
    have hb2 : (newF == "Tier2") = false := by simpa using h2
    have hb6 : (newF == "6Months") = false := by simpa using h6
    rcases horig with h | h <;> simp [h, hb2, hb6]

/-- C6 witness: Scenario D instantiates both universal parts. -/
theorem regular_change_merges_pair_C6_witness :
    (("Tier2" : String) = "Tier2" ∨ ("Tier2" : String) = "6Months") ∧
      ("3Months" : String) ≠ "Tier2" ∧ ("3Months" : String) ≠ "6Months" ∧
      orphanStep "1004" "Tier2" "3Months" dbScenarioD =
        (deleteOrphanedSecondary "1004"
          (if ("Tier2" : String) == "Tier2" then "6Months" else "Tier2") dbScenarioD).2 :=
  ⟨Or.inl rfl, by decide, by decide,
    regular_change_merges_pair_C6.2.1 "1004" "Tier2" "3Months" dbScenarioD
      (Or.inl rfl) (by decide) (by decide)⟩

/-- C4: with both pair rows present, a swap between the two pair tiers
dispatches to the within-pair path; the concrete parametric run (vendor
9, Tier2 → 6Months, arbitrary Vendor Name values) deletes the Tier2 row
first and leaves exactly the 6Months row carrying the merged value —
the Tier2 value when non-empty, else the 6Months value when non-empty,
else NULL; and when the delete reports success without removing the row,
the non-zero post-delete count aborts the whole call with failure,
before any write. -/
theorem within_pair_swap_C4 :
    (∀ (v origF newF : String) (u : Dict) (db : DB),
      (origF = "Tier2" ∨ origF = "6Months") →
      (newF = "Tier2" ∨ newF = "6Months") → origF ≠ newF →
      (fileExistsB v "Tier2" db.table && fileExistsB v "6Months" db.table) = true →
      change_vendor_tier v origF newF u db =
        changeWithinDualEntry v origF newF (stripFILE u) db) ∧
      (∀ a b : Val,
        (change_vendor_tier "9" "Tier2" "6Months" [] (dbPair a b)).1 = true ∧
        (change_vendor_tier "9" "Tier2" "6Months" [] (dbPair a b)).2.table =
          [[("Vendor Number", some "9"), ("FILE", some "6Months"),
            ("Vendor Name", toSQL (mergePairField a b))]] ∧
        toSQL (mergePairField a b) =
          (if isBlank a = false then a else if isBlank b = false then b else none)) ∧
      (∀ a b : Val,
        change_vendor_tier "9" "Tier2" "6Months" []
            ⟨(dbPair a b).table, [DmlOutcome.silent]⟩ =
          (false, ⟨(dbPair a b).table, []⟩)) := by
  refine ⟨change_dispatch_within, ?_, ?_⟩
  · intro a b
    refine ⟨rfl, rfl, ?_⟩
    unfold mergePairField toSQL
    by_cases ha : isBlank a <;> by_cases hb : isBlank b <;> simp [ha, hb]
  · intro a b
    rfl

/-- C4 witness: a concrete dual pair instantiates the dispatch and the
parametric merge. -/
theorem within_pair_swap_C4_witness :
    ((("Tier2" : String) = "Tier2" ∨ ("Tier2" : String) = "6Months") ∧
      (("6Months" : String) = "Tier2" ∨ ("6Months" : String) = "6Months") ∧
      ("Tier2" : String) ≠ "6Months" ∧
      (fileExistsB "9" "Tier2" (dbPair (some "P") (some "Q")).table &&
        fileExistsB "9" "6Months" (dbPair (some "P") (some "Q")).table) = true) ∧
      change_vendor_tier "9" "Tier2" "6Months" [] (dbPair (some "P") (some "Q")) =
        changeWithinDualEntry "9" "Tier2" "6Months" (stripFILE [])
          (dbPair (some "P") (some "Q")) :=
  ⟨⟨Or.inl rfl, Or.inr rfl, by decide, by decide⟩,
    within_pair_swap_C4.1 "9" "Tier2" "6Months" [] (dbPair (some "P") (some "Q"))
      (Or.inl rfl) (Or.inr rfl) (by decide) (by decide)⟩

/-- C8 counterexample: Deduplicate does not process every duplicated
tier group and does not treat a post-delete count mismatch as failure.
On vendor 8 with two Tier1 rows and two 3Months rows it fixes only the
3Months group (the first in FILE order) and reports success with the
Tier1 group still duplicated; on the Scenario C state under a silent
delete, the post-delete count 2 is only logged — the pass proceeds,
re-inserts the merged row, and reports success with three Tier2 rows. -/
theorem dedupe_first_group_only_C8 :
    ((checkAndFixDuplicates "8" dbTwoDupGroups).1 = true ∧
      sqlCount "8" "Tier1" (checkAndFixDuplicates "8" dbTwoDupGroups).2.table = 2 ∧
      sqlCount "8" "3Months" (checkAndFixDuplicates "8" dbTwoDupGroups).2.table = 1) ∧
      ((checkAndFixDuplicates "1003" ⟨dbScenarioC.table, [DmlOutcome.silent]⟩).1 = true ∧
        sqlCount "1003" "Tier2"
          (checkAndFixDuplicates "1003"
            ⟨dbScenarioC.table, [DmlOutcome.silent]⟩).2.table = 3) := by
  exact ⟨⟨rfl, rfl, rfl⟩, rfl, rfl⟩

/-- C8 amended: per call, Deduplicate merges and re-inserts only the
first duplicated tier group in FILE order, with first-non-empty-wins
across that group; the re-insert is count-verified (a zero post-insert
count fails the pass) but the post-delete count is only logged.
Scenario C holds: two Tier2 rows named Bob and blank collapse to one
Tier2 row named Bob, in either storage order, and across a three-row
group the first non-empty value wins. -/
theorem dedupe_merges_first_group_C8 :
    ((checkAndFixDuplicates "1003" dbScenarioC).1 = true ∧
      (checkAndFixDuplicates "1003" dbScenarioC).2.table =
        [[("Vendor Number", some "1003"), ("FILE", some "Tier2"),
          ("Vendor Name", some "Bob")]]) ∧
      (checkAndFixDuplicates "1003"
        ⟨[[("Vendor Number", some "1003"), ("FILE", some "Tier2"), ("Vendor Name", some "")],
          [("Vendor Number", some "1003"), ("FILE", some "Tier2"),
           ("Vendor Name", some "Bob")]], []⟩).2.table =
        [[("Vendor Number", some "1003"), ("FILE", some "Tier2"),
          ("Vendor Name", some "Bob")]] ∧
      (checkAndFixDuplicates "14"
        ⟨[[("Vendor Number", some "14"), ("FILE", some "Tier1"), ("Vendor Name", some "")],
          [("Vendor Number", some "14"), ("FILE", some "Tier1"), ("Vendor Name", some "X")],
          [("Vendor Number", some "14"), ("FILE", some "Tier1"),
           ("Vendor Name", some "Y")]], []⟩).2.table =
        [[("Vendor Number", some "14"), ("FILE", some "Tier1"),
          ("Vendor Name", some "X")]] ∧
      (checkAndFixDuplicates "1003"
        ⟨dbScenarioC.table, [DmlOutcome.ok, DmlOutcome.silent]⟩).1 = false := by
  exact ⟨⟨rfl, rfl⟩, rfl, rfl, rfl⟩

/-! ## Dual-pair synchronization lemmas -/

theorem mem_pairFields (a b : Dict) (f : String) :
    f ∈ pairFields a b ↔ (f ∈ dkeys a ∨ f ∈ dkeys b) ∧ f ≠ "FILE" := by
  unfold pairFields
  rw [List.mem_filter, List.mem_append, List.mem_filter]
  constructor
  · rintro ⟨h1, h2⟩
    refine ⟨?_, by simpa using h2⟩
    rcases h1 with h1 | ⟨h1, _⟩
    · exact Or.inl h1
    · exact Or.inr h1
  · rintro ⟨h1, h2⟩
    refine ⟨?_, by simpa using h2⟩
    by_cases ha : f ∈ dkeys a
    · exact Or.inl ha
    · rcases h1 with h1 | h1
      · exact absurd h1 ha
      · exact Or.inr ⟨h1, by simpa using ha⟩

theorem pairSyncedB_iff (a b : Dict) :
    pairSyncedB a b = true ↔ ∀ f, f ≠ "FILE" → dgetV a f = dgetV b f := by
  unfold pairSyncedB
  rw [List.all_eq_true]
  constructor
  · intro h f hf
    by_cases hm : f ∈ pairFields a b
    · simpa using h f hm
    · rw [mem_pairFields] at hm
      push_neg at hm
      have hnot : f ∉ dkeys a ∧ f ∉ dkeys b := by
        by_cases ha : f ∈ dkeys a
        · exact absurd hf (by simpa using hm (Or.inl ha))
        · by_cases hb : f ∈ dkeys b
          · exact absurd hf (by simpa using hm (Or.inr hb))
          · exact ⟨ha, hb⟩
      rw [dgetV_eq_none_of_not_mem_keys a f hnot.1,
        dgetV_eq_none_of_not_mem_keys b f hnot.2]
  · intro h f hm
    have hf : f ≠ "FILE" := ((mem_pairFields a b f).mp hm).2
    simp [h f hf]

theorem pairSyncedB_dupdate (a b c : Dict) (h : pairSyncedB a b = true) :
    pairSyncedB (dupdate a c) (dupdate b c) = true := by
  rw [pairSyncedB_iff] at h ⊢
  intro f hf
  rw [dgetV_dupdate, dgetV_dupdate]
  cases hl : lastVal c f with
  | some w => rfl
  | none => simpa using h f hf

theorem lastVal_ne_none_of_mem (c : Dict) (k : String) (h : k ∈ c.map (·.1)) :
    lastVal c k ≠ none := by
  rcases List.mem_map.mp h with ⟨p, hp, hk⟩
  unfold lastVal
  intro hcon
  rcases Option.map_eq_none.mp hcon with hfind
  have h2 : ∃ q ∈ c.reverse, (fun q : String × Val => q.1 == k) q := by
    exact ⟨p, List.mem_reverse.mpr hp, by simp [hk]⟩
  have h3 := List.find?_isSome.mpr h2
  rw [hfind] at h3
  simp at h3

theorem dkeys_dset_of_mem (d : Dict) (k : String) (v : Val) (h : k ∈ dkeys d) :
    dkeys (dset d k v) = dkeys d := by
  induction d with
  | nil => simp [dkeys] at h
  | cons p d ih =>
    by_cases hp : p.1 = k
    · simp only [dset, hp, beq_self_eq_true, if_true, dkeys, List.map_cons]
    · have hp2 : (p.1 == k) = false := by simpa using hp
      simp only [dset, hp2, Bool.false_eq_true, if_false, dkeys, List.map_cons]
      have hk : k ∈ dkeys d := by
        rcases List.mem_cons.mp (show k ∈ p.1 :: dkeys d from h) with h1 | h1
        · exact absurd h1.symm hp
        · exact h1
      rw [show List.map (fun p : String × Val => p.1) (dset d k v) = dkeys (dset d k v)
          from rfl, ih hk]
      rfl

theorem dkeys_normalizeEmailsInMerged (m : Dict) :
    dkeys (normalizeEmailsInMerged m) = dkeys m := by
  unfold normalizeEmailsInMerged
  have key : ∀ (fs : List String) (acc : Dict),
      dkeys (fs.foldl (fun acc f =>
        match dgetV acc f with
        | some s => if dhas acc f && s != "" then
            dset acc f (some (validate_email_list_norm s)) else acc
        | none => acc) acc) = dkeys acc := by
    intro fs
    induction fs with
    | nil => intro acc; rfl
    | cons f fs ih =>
      intro acc
      rw [List.foldl_cons, ih]
      cases hv : dgetV acc f with
      | none => rfl
      | some s =>
        show dkeys (if (dhas acc f && s != "") = true then
          dset acc f (some (validate_email_list_norm s)) else acc) = dkeys acc
        by_cases hc : (dhas acc f && s != "") = true
        · rw [if_pos hc]
          refine dkeys_dset_of_mem acc f _ ?_
          by_cases hm : f ∈ dkeys acc
          · exact hm
          · rw [dgetV_eq_none_of_not_mem_keys acc f hm] at hv
            exact absurd hv (by simp)
        · rw [if_neg hc]
  exact key emailFields m

theorem dkeys_syncMergedData (t2 s6 : Dict) :
    dkeys (syncMergedData t2 s6) = pairFields t2 s6 := by
  unfold dkeys syncMergedData
  rw [List.map_map]
  show (pairFields t2 s6).map (fun f => f) = pairFields t2 s6
  exact List.map_id' (pairFields t2 s6)

theorem sqlUpdate_nil_clauses (v f : String) (t : Table) : sqlUpdate v f [] t = t := by
  unfold sqlUpdate
  have : ∀ r : Dict, (if rowMatches v f r then dupdate r [] else r) = r := by
    intro r
    by_cases h : rowMatches v f r <;> simp [h, dupdate]
  rw [List.map_congr_left (fun r _ => this r)]
  exact List.map_id _

theorem updateSingleVendor_run (v f : String) (u : Dict) (t : Table) :
    updateSingleVendor v f u ⟨t, []⟩ =
      (true, ⟨sqlUpdate v f (buildSetClauses u) t, []⟩) := by
  unfold updateSingleVendor
  by_cases h1 : u.isEmpty
  · rw [if_pos h1]
    have h2 : u = [] := List.isEmpty_iff.mp h1
    rw [h2]
    rw [show buildSetClauses [] = [] from rfl, sqlUpdate_nil_clauses]
  · rw [if_neg h1]
    by_cases h2 : (buildSetClauses u).isEmpty
    · rw [if_pos h2]
      rw [List.isEmpty_iff.mp h2, sqlUpdate_nil_clauses]
    · rw [if_neg h2]
      rfl

theorem mem_filter_singleton {α : Type} (p : α → Bool) (l : List α) (a : α)
    (h : l.filter p = [a]) : a ∈ l ∧ p a = true := by
  have : a ∈ l.filter p := by rw [h]; exact List.mem_singleton.mpr rfl
  exact ⟨(List.mem_filter.mp this).1, (List.mem_filter.mp this).2⟩

theorem dualCheck_passes (v : String) (t : Table) (t2 s6 : Dict)
    (ht2 : t.filter (rowMatches v "Tier2") = [t2])
    (hs6 : t.filter (rowMatches v "6Months") = [s6]) :
    (!((dualCheckFiles v t).contains (some "Tier2"))
      || !((dualCheckFiles v t).contains (some "6Months"))) = false := by
  rcases mem_filter_singleton _ _ _ ht2 with ⟨hmem2, hrow2⟩
  rcases mem_filter_singleton _ _ _ hs6 with ⟨hmem6, hrow6⟩
  have h2 : (dualCheckFiles v t).contains (some "Tier2") = true := by
    rw [List.elem_iff]
    refine List.mem_map.mpr ⟨t2, ?_, rowMatches_file v "Tier2" t2 hrow2⟩
    refine List.mem_filter.mpr ⟨hmem2, ?_⟩
    simp [rowMatches_vendor v "Tier2" t2 hrow2, rowMatches_file v "Tier2" t2 hrow2]
  have h6 : (dualCheckFiles v t).contains (some "6Months") = true := by
    rw [List.elem_iff]
    refine List.mem_map.mpr ⟨s6, ?_, rowMatches_file v "6Months" s6 hrow6⟩
    refine List.mem_filter.mpr ⟨hmem6, ?_⟩
    simp [rowMatches_vendor v "6Months" s6 hrow6, rowMatches_file v "6Months" s6 hrow6]
  rw [h2, h6]
  rfl

theorem updateDualEntryVendor_run (v f : String) (u : Dict) (t : Table) (t2 s6 : Dict)
    (ht2 : t.filter (rowMatches v "Tier2") = [t2])
    (hs6 : t.filter (rowMatches v "6Months") = [s6]) :
    updateDualEntryVendor v f u ⟨t, []⟩ =
      (true, ⟨sqlUpdate v "6Months" (buildSetClauses u)
        (sqlUpdate v "Tier2" (buildSetClauses u) t), []⟩) := by
  unfold updateDualEntryVendor
  rw [show (⟨t, []⟩ : DB).table = t from rfl]
  rw [if_neg (by rw [dualCheck_passes v t t2 s6 ht2 hs6]; exact Bool.false_ne_true)]
  rw [updateSingleVendor_run]
  dsimp only
  rw [updateSingleVendor_run]

theorem filter_pair_after_dual_update (v : String) (u : Dict) (t : Table) (t2 s6 : Dict)
    (hvn : "Vendor Number" ∉ u.map (·.1))
    (ht2 : t.filter (rowMatches v "Tier2") = [t2])
    (hs6 : t.filter (rowMatches v "6Months") = [s6]) :
    (sqlUpdate v "6Months" (buildSetClauses u)
        (sqlUpdate v "Tier2" (buildSetClauses u) t)).filter (rowMatches v "Tier2") =
      [dupdate t2 (buildSetClauses u)] ∧
    (sqlUpdate v "6Months" (buildSetClauses u)
        (sqlUpdate v "Tier2" (buildSetClauses u) t)).filter (rowMatches v "6Months") =
      [dupdate s6 (buildSetClauses u)] := by
  have hvnc := vn_not_mem_buildSetClauses u hvn
  have hfc := file_not_mem_buildSetClauses u
  constructor
  · rw [filter_sqlUpdate_other v "6Months" v "Tier2" (buildSetClauses u) _ hfc
      (by decide)]
    rw [filter_sqlUpdate_self v "Tier2" (buildSetClauses u) t hvnc hfc, ht2]
    rfl
  · rw [filter_sqlUpdate_self v "6Months" (buildSetClauses u) _ hvnc hfc]
    rw [filter_sqlUpdate_other v "Tier2" v "6Months" (buildSetClauses u) t hfc
      (by decide)]
    rw [hs6]
    rfl

theorem vn_not_mem_syncUpdates (t2 s6 : Dict) :
    "Vendor Number" ∉ (syncUpdatesOf t2 s6).map (·.1) := by
  intro hmem
  rcases List.mem_map.mp hmem with ⟨p, hp, hk⟩
  have hpred := (List.mem_filter.mp hp).2
  rw [hk] at hpred
  simp at hpred

theorem mem_keys_syncUpdates_of (t2 s6 : Dict) (f : String)
    (hvn : f ≠ "Vendor Number") (hfile : f ≠ "FILE")
    (hmem : f ∈ pairFields t2 s6) :
    f ∈ (syncUpdatesOf t2 s6).map (·.1) := by
  have hkeys : f ∈ dkeys (normalizeEmailsInMerged (syncMergedData t2 s6)) := by
    rw [dkeys_normalizeEmailsInMerged, dkeys_syncMergedData]
    exact hmem
  rcases List.mem_map.mp hkeys with ⟨p, hp, hk⟩
  refine List.mem_map.mpr ⟨p, ?_, hk⟩
  refine List.mem_filter.mpr ⟨hp, ?_⟩
  rw [hk]
  simp [hvn, hfile]

theorem resync_establishes_norm_sync (v : String) (t : Table) (t2 s6 : Dict)
    (ht2 : t.filter (rowMatches v "Tier2") = [t2])
    (hs6 : t.filter (rowMatches v "6Months") = [s6]) :
    (checkAndFixUnsyncedDual v ⟨t, []⟩).1 = true ∧
      ∃ t2x s6x,
        (checkAndFixUnsyncedDual v ⟨t, []⟩).2.table.filter (rowMatches v "Tier2") =
          [t2x] ∧
        (checkAndFixUnsyncedDual v ⟨t, []⟩).2.table.filter (rowMatches v "6Months") =
          [s6x] ∧
        ∀ f, f ≠ "FILE" → f ∉ dateFields →
          normStr (dgetV t2x f) = normStr (dgetV s6x f) := by
  have hf2 := find?_getCombos_of_filter_eq v "Tier2" t t2 ht2
  have hf6 := find?_getCombos_of_filter_eq v "6Months" t s6 hs6
  have hvn2 : dgetV t2 "Vendor Number" = some v :=
    rowMatches_vendor v "Tier2" t2 (mem_filter_singleton _ _ _ ht2).2
  have hvn6 : dgetV s6 "Vendor Number" = some v :=
    rowMatches_vendor v "6Months" s6 (mem_filter_singleton _ _ _ hs6).2
  unfold checkAndFixUnsyncedDual
  rw [show (⟨t, []⟩ : DB).table = t from rfl, hf2, hf6]
  dsimp only
  by_cases hmm : (pairMismatches t2 s6).isEmpty = true
  · rw [if_pos hmm]
    refine ⟨rfl, t2, s6, ht2, hs6, ?_⟩
    intro f hf hdf
    have hnil : pairMismatches t2 s6 = [] := List.isEmpty_iff.mp hmm
    by_cases hfm : f ∈ pairFields t2 s6
    · have h1 := List.filter_eq_nil_iff.mp hnil f hfm
      simpa using h1
    · have hkeys : f ∉ dkeys t2 ∧ f ∉ dkeys s6 := by
        constructor
        · intro hk
          exact hfm ((mem_pairFields t2 s6 f).mpr ⟨Or.inl hk, hf⟩)
        · intro hk
          exact hfm ((mem_pairFields t2 s6 f).mpr ⟨Or.inr hk, hf⟩)
      rw [dgetV_eq_none_of_not_mem_keys t2 f hkeys.1,
        dgetV_eq_none_of_not_mem_keys s6 f hkeys.2]
  · rw [if_neg hmm]
    rw [updateDualEntryVendor_run v "Tier2" (syncUpdatesOf t2 s6) t t2 s6 ht2 hs6]
    obtain ⟨hft2, hfs6⟩ := filter_pair_after_dual_update v (syncUpdatesOf t2 s6) t t2 s6
      (vn_not_mem_syncUpdates t2 s6) ht2 hs6
    refine ⟨rfl, dupdate t2 (buildSetClauses (syncUpdatesOf t2 s6)),
      dupdate s6 (buildSetClauses (syncUpdatesOf t2 s6)), hft2, hfs6, ?_⟩
    intro f hf hdf
    rw [dgetV_dupdate, dgetV_dupdate]
    cases hl : lastVal (buildSetClauses (syncUpdatesOf t2 s6)) f with
    | some w => rfl
    | none =>
      have hdfc : dateFields.contains f = false := by
        by_contra hcon
        have h2 : dateFields.contains f = true := by simpa using hcon
        exact hdf (List.elem_iff.mp h2)
      have hnotC : f ∉ (buildSetClauses (syncUpdatesOf t2 s6)).map (·.1) := by
        intro hmem
        exact lastVal_ne_none_of_mem _ f hmem hl
      have hcases : f = "Vendor Number" ∨ f ∉ pairFields t2 s6 := by
        by_contra hcon
        push_neg at hcon
        exact hnotC (mem_keys_buildSetClauses_plain (syncUpdatesOf t2 s6) f hf hdfc
          (mem_keys_syncUpdates_of t2 s6 f hcon.1 hf hcon.2))
      rcases hcases with hfv | hfm
      · rw [hfv]
        simp [hvn2, hvn6]
      · have hkeys : f ∉ dkeys t2 ∧ f ∉ dkeys s6 := by
          constructor
          · intro hk
            exact hfm ((mem_pairFields t2 s6 f).mpr ⟨Or.inl hk, hf⟩)
          · intro hk
            exact hfm ((mem_pairFields t2 s6 f).mpr ⟨Or.inr hk, hf⟩)
        rw [dgetV_eq_none_of_not_mem_keys t2 f hkeys.1,
          dgetV_eq_none_of_not_mem_keys s6 f hkeys.2]

theorem update_vendor_dual_application (v f : String) (u : Dict) (t : Table)
    (t2 s6 : Dict) (hvn : "Vendor Number" ∉ u.map (·.1))
    (ht2 : t.filter (rowMatches v "Tier2") = [t2])
    (hs6 : t.filter (rowMatches v "6Months") = [s6])
    (hpair : f = "Tier2" ∨ f = "6Months") :
    (update_vendor v f u ⟨t, []⟩).1 = true ∧
      (update_vendor v f u ⟨t, []⟩).2.table.filter (rowMatches v "Tier2") =
        [dupdate t2 (buildSetClauses u)] ∧
      (update_vendor v f u ⟨t, []⟩).2.table.filter (rowMatches v "6Months") =
        [dupdate s6 (buildSetClauses u)] := by
  unfold update_vendor
  by_cases hu : u.isEmpty = true
  · rw [if_pos hu]
    have hunil : u = [] := List.isEmpty_iff.mp hu
    subst hunil
    refine ⟨rfl, ?_, ?_⟩
    · rw [show buildSetClauses [] = [] from rfl, show dupdate t2 [] = t2 from rfl]
      exact ht2
    · rw [show buildSetClauses [] = [] from rfl, show dupdate s6 [] = s6 from rfl]
      exact hs6
  · rw [if_neg hu]
    have hcond : (f == "Tier2" || f == "6Months") = true := by
      rcases hpair with h | h <;> simp [h]
    rw [if_pos hcond]
    rw [updateDualEntryVendor_run v f u t t2 s6 ht2 hs6]
    obtain ⟨h1, h2⟩ := filter_pair_after_dual_update v u t t2 s6 hvn ht2 hs6
    exact ⟨rfl, h1, h2⟩

/-- C7 counterexample: ResyncDualPair does not leave all non-Tier fields
equal. Vendor 2's pair disagrees on a chargeback date column whose Tier2
value "garbage" cannot be parsed, so the update builder skips the field:
the pass reports success and changes nothing, leaving the rows unequal
on that column even after normalization. Vendor 3's pair differs only by
a whitespace-only value versus NULL: the pass sees no mismatch under its
normalization and leaves the rows literally unequal. -/
theorem resync_misses_date_and_blank_C7 :
    ((checkAndFixUnsyncedDual "2" dbBadDate).1 = true ∧
      (checkAndFixUnsyncedDual "2" dbBadDate).2.table = dbBadDate.table ∧
      dgetV (dbBadDate.table.headD []) "Soft Chargeback Effective Date" =
        some "garbage" ∧
      dgetV (dbBadDate.table.getLastD []) "Soft Chargeback Effective Date" = none ∧
      normStr (some "garbage") ≠ normStr (none : Val)) ∧
      ((checkAndFixUnsyncedDual "3" dbTrimPair).1 = true ∧
        (checkAndFixUnsyncedDual "3" dbTrimPair).2.table = dbTrimPair.table ∧
        dgetV (dbTrimPair.table.headD []) "Vendor Name" = some " " ∧
        dgetV (dbTrimPair.table.getLastD []) "Vendor Name" = none) := by
  exact ⟨⟨rfl, rfl, rfl, rfl, by decide⟩, rfl, rfl, rfl, rfl⟩

/-- C7 amended: a field update addressed at either row of an intact dual
pair succeeds and writes the very same SET clauses to both rows, hence a
literally synchronized pair stays synchronized; and ResyncDualPair
succeeds and leaves the pair rows agreeing, under the
NULL/whitespace normalization of the engine, on every column except FILE and the two
chargeback date columns (whose merged value the update builder may skip
as unparseable). -/
theorem dual_pair_sync_amended_C7 :
    (∀ (v f : String) (u : Dict) (t : Table) (t2 s6 : Dict),
      "Vendor Number" ∉ u.map (·.1) →
      t.filter (rowMatches v "Tier2") = [t2] →
      t.filter (rowMatches v "6Months") = [s6] →
      (f = "Tier2" ∨ f = "6Months") →
      (update_vendor v f u ⟨t, []⟩).1 = true ∧
        (update_vendor v f u ⟨t, []⟩).2.table.filter (rowMatches v "Tier2") =
          [dupdate t2 (buildSetClauses u)] ∧
        (update_vendor v f u ⟨t, []⟩).2.table.filter (rowMatches v "6Months") =
          [dupdate s6 (buildSetClauses u)] ∧
        (pairSyncedB t2 s6 = true →
          pairSyncedB (dupdate t2 (buildSetClauses u))
            (dupdate s6 (buildSetClauses u)) = true)) ∧
      (∀ (v : String) (t : Table) (t2 s6 : Dict),
        t.filter (rowMatches v "Tier2") = [t2] →
        t.filter (rowMatches v "6Months") = [s6] →
        (checkAndFixUnsyncedDual v ⟨t, []⟩).1 = true ∧
          ∃ t2x s6x,
            (checkAndFixUnsyncedDual v ⟨t, []⟩).2.table.filter
              (rowMatches v "Tier2") = [t2x] ∧
            (checkAndFixUnsyncedDual v ⟨t, []⟩).2.table.filter
              (rowMatches v "6Months") = [s6x] ∧
            ∀ f, f ≠ "FILE" → f ∉ dateFields →
              normStr (dgetV t2x f) = normStr (dgetV s6x f)) := by
  constructor
  · intro v f u t t2 s6 hvn ht2 hs6 hpair
    obtain ⟨h1, h2, h3⟩ := update_vendor_dual_application v f u t t2 s6 hvn ht2 hs6 hpair
    exact ⟨h1, h2, h3, pairSyncedB_dupdate t2 s6 (buildSetClauses u)⟩
  · intro v t t2 s6 ht2 hs6
    exact resync_establishes_norm_sync v t t2 s6 ht2 hs6

/-- C7 witness: the synchronized pair of vendor 9 instantiates both the
dual-application part and the resync part. -/
theorem dual_pair_sync_amended_C7_witness :
    ("Vendor Number" ∉ ([("Vendor Name", some "M")] : Dict).map (·.1) ∧
      (dbPair (some "P") (some "P")).table.filter (rowMatches "9" "Tier2") =
        [[("Vendor Number", some "9"), ("FILE", some "Tier2"),
          ("Vendor Name", some "P")]] ∧
      (dbPair (some "P") (some "P")).table.filter (rowMatches "9" "6Months") =
        [[("Vendor Number", some "9"), ("FILE", some "6Months"),
          ("Vendor Name", some "P")]] ∧
      (("Tier2" : String) = "Tier2" ∨ ("Tier2" : String) = "6Months")) ∧
      ((update_vendor "9" "Tier2" [("Vendor Name", some "M")]
          ⟨(dbPair (some "P") (some "P")).table, []⟩).1 = true ∧
        (update_vendor "9" "Tier2" [("Vendor Name", some "M")]
            ⟨(dbPair (some "P") (some "P")).table, []⟩).2.table.filter
          (rowMatches "9" "Tier2") =
          [dupdate [("Vendor Number", some "9"), ("FILE", some "Tier2"),
            ("Vendor Name", some "P")]
            (buildSetClauses [("Vendor Name", some "M")])] ∧
        (update_vendor "9" "Tier2" [("Vendor Name", some "M")]
            ⟨(dbPair (some "P") (some "P")).table, []⟩).2.table.filter
          (rowMatches "9" "6Months") =
          [dupdate [("Vendor Number", some "9"), ("FILE", some "6Months"),
            ("Vendor Name", some "P")]
            (buildSetClauses [("Vendor Name", some "M")])] ∧
        (pairSyncedB [("Vendor Number", some "9"), ("FILE", some "Tier2"),
            ("Vendor Name", some "P")]
            [("Vendor Number", some "9"), ("FILE", some "6Months"),
              ("Vendor Name", some "P")] = true →
          pairSyncedB
            (dupdate [("Vendor Number", some "9"), ("FILE", some "Tier2"),
              ("Vendor Name", some "P")]
              (buildSetClauses [("Vendor Name", some "M")]))
            (dupdate [("Vendor Number", some "9"), ("FILE", some "6Months"),
              ("Vendor Name", some "P")]
              (buildSetClauses [("Vendor Name", some "M")])) = true)) :=
  ⟨⟨by decide, by decide, by decide, Or.inl rfl⟩,
    dual_pair_sync_amended_C7.1 "9" "Tier2" [("Vendor Name", some "M")]
      (dbPair (some "P") (some "P")).table
      [("Vendor Number", some "9"), ("FILE", some "Tier2"), ("Vendor Name", some "P")]
      [("Vendor Number", some "9"), ("FILE", some "6Months"), ("Vendor Name", some "P")]
      (by decide) (by decide) (by decide) (Or.inl rfl)⟩
